import Mathlib

/-!
Verification of the ClutterGesture recognition core
(src/clutter/clutter/clutter-gesture.c and the bundled recognizers) against
its natural-language specification.  The development shallowly embeds the C
code: machine integers become Nat/Int with explicit wrap-around where the C
performs unsigned arithmetic, GObject state becomes explicit record passing,
and the per-gesture registry of the translation unit becomes a World record
threaded through every function.
-/

set_option maxRecDepth 4000

namespace GestureModel

/-- Gesture lifecycle states of the ClutterGestureState enum as used by
src/clutter/clutter/clutter-gesture.c (this revision has five states). -/
inductive GState where
  | waiting
  | possible
  | recognizing
  | completed
  | cancelled
deriving DecidableEq, Repr, Inhabited

/-- GesturePointPrivate: the private per-point record of clutter-gesture.c
(devices, the event sequence and the pressed-button depth counter; the owned
latest-event copy is represented by the data stored in the public point). -/
structure PrivPoint where
  device : Nat
  sequence : Nat
  source_device : Nat
  n_buttons_pressed : Nat
deriving DecidableEq, Repr, Inhabited

/-- ClutterGesturePoint: the public per-point record with the episode index,
the begin/move/end/last/latest coordinate snapshots and the event time. -/
structure PubPoint where
  index : Nat
  begin_x : Int := 0
  begin_y : Int := 0
  move_x : Int := 0
  move_y : Int := 0
  end_x : Int := 0
  end_y : Int := 0
  last_x : Int := 0
  last_y : Int := 0
  latest_x : Int := 0
  latest_y : Int := 0
  event_time : Nat := 0
deriving DecidableEq, Repr, Inhabited

/-- Event types relevant to clutter_gesture_handle_event; every other
ClutterEventType is propagated unchanged by the dispatcher. -/
inductive EvType where
  | buttonPress
  | motion
  | buttonRelease
  | touchBegin
  | touchUpdate
  | touchEnd
  | touchCancel
  | enter
  | leave
  | otherEvent
deriving DecidableEq, Repr, Inhabited

/-- ClutterEvent fields consumed by the gesture code. -/
structure Event where
  type : EvType
  device : Nat
  sequence : Nat
  source_device : Nat
  source_device_type : Nat
  x : Int
  y : Int
  time : Nat
  synthetic : Bool
deriving DecidableEq, Repr, Inhabited

/-- ClutterGesturePrivate: per-gesture instance state of clutter-gesture.c.
Peer gestures are referenced by their index in the world.  The
may_recognize field models the result of emitting the may-recognize signal
(the default class handler clutter_gesture_real_may_recognize returns TRUE).
The four vfunc hooks should_influence, should_be_influenced_by,
should_start_while and other_gesture_may_start are NULL for every gesture
class contained in the sources, so the embedding omits them and uses the
C defaults at their call sites. -/
structure Gesture where
  state : GState := .waiting
  points : List PrivPoint := []
  public_points : List PubPoint := []
  point_indices : Nat := 0
  allowed_device_types : Nat :=
    2 ^ 0 + 2 ^ 4 + 2 ^ 5 + 2 ^ 6
  in_relationship_with : List Nat := []
  cancel_on_recognizing : List Nat := []
  can_not_cancel : List Nat := []
  recognize_independently_from : List Nat := []
  may_recognize : Bool := true
deriving DecidableEq, Repr, Inhabited

/-- World: the state of the whole translation unit: every gesture instance,
the process-wide all_active_gestures registry, the stage's claimed-sequence
map (clutter_stage_set_sequence_claimed_by_gesture calls recorded as
(gesture, device, sequence) triples), every state_changed vfunc emission
recorded in order, and the number of g_warning diagnostics issued. -/
structure World where
  gestures : Nat → Gesture
  all_active_gestures : List Nat := []
  claimed : List (Nat × Nat × Nat) := []
  state_changed_log : List (Nat × GState × GState) := []
  warnings : Nat := 0

/-- Look up the gesture instance with index i. -/
def World.gesture (w : World) (i : Nat) : Gesture := w.gestures i

/-- Replace the gesture instance with index i. -/
def World.setG (w : World) (i : Nat) (g : Gesture) : World :=
  { w with gestures := fun j => if j = i then g else w.gestures j }

/-- Record one state_changed vfunc emission together with the
g_object_notify on the state property (both happen once per executed
transition at the end of set_state). -/
def World.logStateChanged (w : World) (i : Nat) (old new : GState) : World :=
  { w with state_changed_log := w.state_changed_log ++ [(i, old, new)] }

/-- The assertion table at the top of set_state in clutter-gesture.c: the
transitions the g_assert switch accepts. -/
def legal_transition : GState → GState → Bool
  | .waiting, .possible => true
  | .possible, .recognizing => true
  | .possible, .cancelled => true
  | .recognizing, .recognizing => true
  | .recognizing, .completed => true
  | .recognizing, .cancelled => true
  | .completed, .waiting => true
  | .cancelled, .waiting => true
  | _, _ => false

/-- other_gesture_allowed_to_start: called with the already recognizing
gesture as self and the gesture attempting to start as other_gesture.  The
starting gesture is allowed when its own recognize_independently_from set
contains the recognizing gesture; the should_start_while and
other_gesture_may_start vfuncs are NULL for every class in the sources, so
should_start keeps its default FALSE. -/
def other_gesture_allowed_to_start (w : World) (selfId otherId : Nat) : Bool :=
  if selfId ∈ (w.gesture otherId).recognize_independently_from then true
  else false

/-- new_gesture_allowed_to_start: scan all_active_gestures; a gesture in
relationship with self is skipped, and an unrelated gesture in state
RECOGNIZING must allow self to start. -/
def new_gesture_allowed_to_start (w : World) (selfId : Nat) : Bool :=
  w.all_active_gestures.all fun existingId =>
    if existingId = selfId then true
    else if selfId ∈ (w.gesture existingId).in_relationship_with then true
    else if (w.gesture existingId).state = .recognizing then
      other_gesture_allowed_to_start w existingId selfId
    else true

/-- gesture_may_start: global start eligibility plus the may-recognize
signal emission (first-wins accumulator, default handler returns TRUE). -/
def gesture_may_start (w : World) (selfId : Nat) : Bool :=
  new_gesture_allowed_to_start w selfId && (w.gesture selfId).may_recognize

/-- Unrelate step for entering WAITING: every peer recorded in the
departing gesture's in_relationship_with loses that gesture from its own
in_relationship_with table (the symmetric removal loop of set_state). -/
def unrelate_all (w : World) (peers : List Nat) (selfId : Nat) : World :=
  peers.foldl
    (fun w otherId =>
      w.setG otherId
        { w.gesture otherId with
          in_relationship_with :=
            (w.gesture otherId).in_relationship_with.erase selfId })
    w

/-- set_state of clutter-gesture.c for every target state other than
RECOGNIZING.  These targets never re-enter set_state (the recursion in the
C code happens only on the RECOGNIZING path), so they are defined first;
the full set_state below delegates to this function.  A transition outside
the assertion table would abort the C program via g_assert and is mapped to
an unreached no-op branch. -/
def set_state_simple (w : World) (selfId : Nat) (new_state : GState) : World :=
  if (w.gesture selfId).state = new_state ∧ new_state ≠ GState.recognizing then w
  else if ¬ legal_transition (w.gesture selfId).state new_state then w
  else if (w.gesture selfId).state = .waiting ∧ new_state = .possible then
    (if ¬ gesture_may_start w selfId then w
     else
       ({ w with all_active_gestures :=
            w.all_active_gestures ++ [selfId] }.setG selfId
         { w.gesture selfId with state := .possible }).logStateChanged
         selfId .waiting .possible)
  else if new_state = GState.waiting then
    ((unrelate_all
        { w with all_active_gestures := w.all_active_gestures.erase selfId }
        (w.gesture selfId).in_relationship_with selfId).setG selfId
      { w.gesture selfId with
        state := .waiting
        points := []
        in_relationship_with := []
        cancel_on_recognizing := [] }).logStateChanged
      selfId (w.gesture selfId).state .waiting
  else
    (w.setG selfId
      (if new_state = GState.cancelled ∨ new_state = GState.completed then
        { w.gesture selfId with
          state := new_state
          public_points := []
          point_indices := 0 }
       else
        { w.gesture selfId with state := new_state })).logStateChanged
      selfId (w.gesture selfId).state new_state

/-- maybe_move_to_waiting: a gesture without points in a terminal state
returns to WAITING (via set_state, whose WAITING path equals
set_state_simple). -/
def maybe_move_to_waiting (w : World) (selfId : Nat) : World :=
  if (w.gesture selfId).points = [] ∧
     ((w.gesture selfId).state = GState.completed ∨
      (w.gesture selfId).state = GState.cancelled) then
    set_state_simple w selfId .waiting
  else w

/-- maybe_influence_other_gestures: when self is RECOGNIZING or COMPLETED,
snapshot and clear cancel_on_recognizing, then cancel every snapshot member
still present in the live in_relationship_with table; each victim is then
given the chance to return to WAITING. -/
def influence_step (selfId : Nat) (w : World) (otherId : Nat) : World :=
  if otherId ∈ (w.gesture selfId).in_relationship_with then
    maybe_move_to_waiting (set_state_simple w otherId .cancelled) otherId
  else w

/-- maybe_influence_other_gestures: when self is RECOGNIZING or COMPLETED,
snapshot and clear cancel_on_recognizing, then cancel every snapshot member
still present in the live in_relationship_with table (influence_step); each
victim is then given the chance to return to WAITING. -/
def maybe_influence_other_gestures (w : World) (selfId : Nat) : World :=
  if (w.gesture selfId).state = GState.recognizing ∨
     (w.gesture selfId).state = GState.completed then
    ((w.gesture selfId).cancel_on_recognizing).foldl (influence_step selfId)
      (w.setG selfId
        { w.gesture selfId with cancel_on_recognizing := [] })
  else w

/-- set_state_authoritative specialized to the CANCELLED target, the form
used from maybe_cancel_independent_gestures (a CANCELLED target never takes
the COMPLETED rewrite branch and its set_state call never recurses). -/
def set_state_auth_cancelled (w : World) (selfId : Nat) : World :=
  maybe_move_to_waiting
    (if ((set_state_simple w selfId .cancelled).gesture selfId).state =
          GState.recognizing ∨
        ((set_state_simple w selfId .cancelled).gesture selfId).state =
          GState.cancelled then
      maybe_influence_other_gestures (set_state_simple w selfId .cancelled)
        selfId
     else set_state_simple w selfId .cancelled)
    selfId

/-- Loop body of maybe_cancel_independent_gestures: the C code iterates i
from the entry length of all_active_gestures down to 0, re-checking the
live array bound each step because victims may drop out of the registry
mid-iteration; self and gestures in relationship with self are skipped and
an unrelated POSSIBLE gesture no longer allowed to start is cancelled
authoritatively. -/
def mcig_step (selfId k : Nat) (w : World) : World :=
  if h : k < w.all_active_gestures.length then
    if w.all_active_gestures.get ⟨k, h⟩ = selfId then w
    else if w.all_active_gestures.get ⟨k, h⟩ ∈
        (w.gesture selfId).in_relationship_with then w
    else if (w.gesture (w.all_active_gestures.get ⟨k, h⟩)).state =
              GState.possible ∧
            ¬ other_gesture_allowed_to_start w selfId
                (w.all_active_gestures.get ⟨k, h⟩) then
      set_state_auth_cancelled w (w.all_active_gestures.get ⟨k, h⟩)
    else w
  else w

/-- Iteration of maybe_cancel_independent_gestures: one mcig_step per
index, from the entry length of all_active_gestures down to 0. -/
def mcig_go (selfId : Nat) : Nat → World → World
  | 0, w => w
  | k + 1, w => mcig_go selfId k (mcig_step selfId k w)

/-- maybe_cancel_independent_gestures: cancel every unrelated POSSIBLE
gesture that is no longer allowed to start now that self recognizes. -/
def maybe_cancel_independent_gestures (w : World) (selfId : Nat) : World :=
  mcig_go selfId w.all_active_gestures.length w

/-- set_state of clutter-gesture.c.  The RECOGNIZING target carries the
arbitration consultation, the sequence-claim pass on the stage and the
cancellation of independent gestures; every other target is handled by
set_state_simple above (definitionally the same code path). -/
def set_state (w : World) (selfId : Nat) (new_state : GState) : World :=
  if new_state ≠ GState.recognizing then set_state_simple w selfId new_state
  else if ¬ legal_transition (w.gesture selfId).state .recognizing then w
  else if (w.gesture selfId).state = GState.possible ∧
          ¬ gesture_may_start w selfId then
    set_state_simple w selfId .cancelled
  else
    (maybe_cancel_independent_gestures
      { w.setG selfId { w.gesture selfId with state := .recognizing } with
        claimed := w.claimed ++
          (w.gesture selfId).points.map
            (fun p => (selfId, p.device, p.sequence)) }
      selfId).logStateChanged selfId (w.gesture selfId).state .recognizing

/-- set_state_authoritative: moving to COMPLETED always goes through
RECOGNIZING; afterwards run the cancellation cascade and the possible
return to WAITING. -/
def set_state_authoritative (w : World) (selfId : Nat) (new_state : GState) : World :=
  if (w.gesture selfId).state ≠ GState.recognizing ∧
     new_state = GState.completed then
    maybe_move_to_waiting
      (maybe_influence_other_gestures
        (if ((set_state w selfId .recognizing).gesture selfId).state =
              GState.recognizing then
          set_state (set_state w selfId .recognizing) selfId .completed
         else set_state w selfId .recognizing)
        selfId)
      selfId
  else
    maybe_move_to_waiting
      (if ((set_state w selfId new_state).gesture selfId).state =
            GState.recognizing ∨
          ((set_state w selfId new_state).gesture selfId).state =
            GState.cancelled then
        maybe_influence_other_gestures (set_state w selfId new_state) selfId
       else set_state w selfId new_state)
      selfId

/-- Request table of the public clutter_gesture_set_state entry point. -/
def legal_request : GState → GState → Bool
  | .waiting, .possible => true
  | .possible, .recognizing => true
  | .possible, .completed => true
  | .possible, .cancelled => true
  | .recognizing, .recognizing => true
  | .recognizing, .completed => true
  | .recognizing, .cancelled => true
  | .completed, .waiting => true
  | .cancelled, .waiting => true
  | _, _ => false

/-- clutter_gesture_set_state: accepted requests run
set_state_authoritative; unnecessary tries to cancel are never complained
about; every other invalid request emits a g_warning and is dropped. -/
def clutter_gesture_set_state (w : World) (selfId : Nat) (new_state : GState) : World :=
  if legal_request (w.gesture selfId).state new_state then
    set_state_authoritative w selfId new_state
  else if new_state = GState.cancelled then w
  else { w with warnings := w.warnings + 1 }

end GestureModel

namespace GestureModel

/-- find_point: first private point matching (device, sequence), returned
as its list index. -/
def find_point (g : Gesture) (device sequence : Nat) : Option Nat :=
  (List.range g.points.length).find? fun i =>
    (g.points.getD i default).device = device ∧
    (g.points.getD i default).sequence = sequence

/-- register_point: append a fresh private point built from the event. -/
def register_point (w : World) (selfId : Nat) (e : Event) : World :=
  w.setG selfId
    { w.gesture selfId with points := (w.gesture selfId).points ++
        [{ device := e.device, sequence := e.sequence,
           source_device := e.source_device, n_buttons_pressed := 0 }] }

/-- Removal part of unregister_point: delete the first private point
matching (device, sequence) together with its public counterpart. -/
def remove_point (w : World) (selfId device sequence : Nat) : World :=
  match find_point (w.gesture selfId) device sequence with
  | none => w
  | some i =>
      w.setG selfId
        { w.gesture selfId with
          points := (w.gesture selfId).points.eraseIdx i
          public_points :=
            if i < (w.gesture selfId).public_points.length then
              (w.gesture selfId).public_points.eraseIdx i
            else (w.gesture selfId).public_points }

/-- unregister_point: remove the first private point matching
(device, sequence) together with its public counterpart, then move a
pointless terminal gesture back to WAITING (via set_state_authoritative). -/
def unregister_point (w : World) (selfId device sequence : Nat) : World :=
  if ((remove_point w selfId device sequence).gesture selfId).points = [] ∧
     (((remove_point w selfId device sequence).gesture selfId).state =
        GState.completed ∨
      ((remove_point w selfId device sequence).gesture selfId).state =
        GState.cancelled) then
    set_state_authoritative (remove_point w selfId device sequence) selfId
      .waiting
  else remove_point w selfId device sequence

/-- update_point_from_event: refresh the public point's event snapshot and
coordinate fields according to the event type. -/
def update_point_from_event (p : PubPoint) (e : Event) : PubPoint :=
  let p := { p with event_time := e.time }
  let p :=
    if e.type = EvType.buttonPress ∨ e.type = EvType.touchBegin then
      { p with begin_x := e.x, begin_y := e.y }
    else if e.type = EvType.motion ∨ e.type = EvType.touchUpdate then
      { p with move_x := e.x, move_y := e.y }
    else
      { p with end_x := e.x, end_y := e.y }
  { p with last_x := p.latest_x, last_y := p.latest_y,
           latest_x := e.x, latest_y := e.y }

/-- clutter_gesture_should_handle_sequence: accept a new sequence only if
the gesture is not CANCELLED, new points share the first point's source
device, the device-type mask admits the source device, and a WAITING
gesture manages to enter POSSIBLE; on acceptance the point is
registered. -/
def should_handle_sequence (w : World) (selfId : Nat) (e : Event) : Bool × World :=
  if (w.gesture selfId).state = GState.cancelled then (false, w)
  else if (w.gesture selfId).points.length > 0 then
    (if ((w.gesture selfId).points.headD default).source_device ≠
        e.source_device then (false, w)
     else (true, register_point w selfId e))
  else if ¬ ((w.gesture selfId).allowed_device_types.testBit
      e.source_device_type) then (false, w)
  else if (w.gesture selfId).state = GState.waiting then
    (if ((set_state_authoritative w selfId .possible).gesture selfId).state ≠
        GState.possible then
      (false, set_state_authoritative w selfId .possible)
     else
      (true, register_point (set_state_authoritative w selfId .possible)
        selfId e))
  else (true, register_point w selfId e)

/-- Pressed-button depth update at the top of clutter_gesture_handle_event:
a BUTTON_PRESS increments and a BUTTON_RELEASE decrements the point's
n_buttons_pressed counter before anything else happens. -/
def bump_buttons (w : World) (selfId i : Nat) (e : Event) : World :=
  if e.type = EvType.buttonPress then
    w.setG selfId
      { w.gesture selfId with
        points := (w.gesture selfId).points.set i
          { (w.gesture selfId).points.getD i default with
            n_buttons_pressed :=
              ((w.gesture selfId).points.getD i default).n_buttons_pressed + 1 } }
  else if e.type = EvType.buttonRelease then
    w.setG selfId
      { w.gesture selfId with
        points := (w.gesture selfId).points.set i
          { (w.gesture selfId).points.getD i default with
            n_buttons_pressed :=
              ((w.gesture selfId).points.getD i default).n_buttons_pressed - 1 } }
  else w

/-- Multi-button suppression test of clutter_gesture_handle_event: a press
beyond the first or a release that does not drop the depth to zero is
absorbed. -/
def button_swallowed (g : Gesture) (i : Nat) (e : Event) : Bool :=
  if e.type = EvType.buttonPress then
    ((g.points.getD i default).n_buttons_pressed + 1) ≥ 2
  else if e.type = EvType.buttonRelease then
    ((g.points.getD i default).n_buttons_pressed - 1) ≥ 1
  else false

/-- Event dispatch of clutter_gesture_handle_event after the button-depth
update: silent unregistration in terminal states, public-point creation on
press/touch-begin, coordinate update on motion, update plus unregistration
on release, unregistration on touch-cancel; crossing events reach no
vfunc on the base class. -/
def handle_event_tail (w : World) (selfId : Nat) (e : Event) (i : Nat) : World :=
  if (w.gesture selfId).state = GState.cancelled ∨
     (w.gesture selfId).state = GState.completed then
    (if e.type = EvType.buttonRelease ∨ e.type = EvType.touchEnd ∨
        e.type = EvType.touchCancel then
      unregister_point w selfId e.device e.sequence
     else w)
  else if e.type = EvType.buttonPress ∨ e.type = EvType.touchBegin then
    w.setG selfId
      { w.gesture selfId with
        public_points := (w.gesture selfId).public_points ++
          [update_point_from_event
            { index := (w.gesture selfId).point_indices } e]
        point_indices := (w.gesture selfId).point_indices + 1 }
  else if e.type = EvType.motion ∨ e.type = EvType.touchUpdate then
    (if i < (w.gesture selfId).public_points.length then
      w.setG selfId
        { w.gesture selfId with
          public_points := (w.gesture selfId).public_points.set i
            (update_point_from_event
              ((w.gesture selfId).public_points.getD i default) e) }
     else w)
  else if e.type = EvType.buttonRelease ∨ e.type = EvType.touchEnd then
    unregister_point
      (if i < (w.gesture selfId).public_points.length then
        w.setG selfId
          { w.gesture selfId with
            public_points := (w.gesture selfId).public_points.set i
              (update_point_from_event
                ((w.gesture selfId).public_points.getD i default) e) }
       else w)
      selfId e.device e.sequence
  else if e.type = EvType.touchCancel then
    unregister_point w selfId e.device e.sequence
  else w

/-- clutter_gesture_handle_event: synthetic events and event types outside
the nine handled kinds propagate unchanged, events for unknown points are
ignored, and otherwise the button-depth update, the multi-button
suppression and the dispatch above run in order.  The
points_began/moved/ended/cancelled and crossing_event vfuncs are NULL on
the base ClutterGesture class, so their emissions have no further
effect. -/
def handle_event (w : World) (selfId : Nat) (e : Event) : World :=
  if e.synthetic then w
  else if e.type = EvType.otherEvent then w
  else
    match find_point (w.gesture selfId) e.device e.sequence with
    | none => w
    | some i =>
        if button_swallowed (w.gesture selfId) i e then bump_buttons w selfId i e
        else handle_event_tail (bump_buttons w selfId i e) selfId e i

/-- cancel_all_points: used when the gesture is detached from its actor;
emits one points_cancelled batch (NULL vfunc on the base class) and drops
every point, returning to WAITING when already terminal. -/
def cancel_all_points (w : World) (selfId : Nat) : World :=
  if (w.gesture selfId).state = GState.cancelled ∨
     (w.gesture selfId).state = GState.completed then
    set_state_authoritative
      (w.setG selfId { w.gesture selfId with points := [] }) selfId .waiting
  else
    (if ((w.setG selfId
          { w.gesture selfId with points := [], public_points := [] }).gesture
            selfId).state = GState.cancelled ∨
        ((w.setG selfId
          { w.gesture selfId with points := [], public_points := [] }).gesture
            selfId).state = GState.completed then
      set_state_authoritative
        (w.setG selfId
          { w.gesture selfId with points := [], public_points := [] })
        selfId .waiting
     else
      w.setG selfId
        { w.gesture selfId with points := [], public_points := [] })

/-- cancel_points_by_sequences: batch cancellation entry used by
clutter_gesture_sequences_cancelled; sequence list interpretation (empty
list meaning the device's NULL-sequence point) mirrors the C call. -/
def cancel_points_by_sequences (w : World) (selfId : Nat) (device : Nat)
    (sequences : List Nat) : World :=
  if sequences = [] then unregister_point w selfId device 0
  else sequences.foldl (fun w s => unregister_point w selfId device s) w

/-- setup_influence_on_other_gesture: the default is that self cancels the
other gesture on recognizing; the should_influence and
should_be_influenced_by vfuncs are NULL for every class in the sources;
afterwards the public can_not_cancel override applies. -/
def setup_influence_on_other_gesture (w : World) (selfId otherId : Nat) : Bool :=
  let cancel := true
  if otherId ∈ (w.gesture selfId).can_not_cancel then false else cancel

/-- clutter_gesture_setup_sequence_relationship: link two gestures sharing
a point, compute both cancellation polarities (reusing them when the pair
is already linked) and return the delivery-ordering hint. -/
def setup_sequence_relationship (w : World) (id1 id2 : Nat) : Int × World :=
  if id2 ∈ (w.gesture id1).in_relationship_with then
    let cancel_1 := id1 ∈ (w.gesture id2).cancel_on_recognizing
    let cancel_2 := id2 ∈ (w.gesture id1).cancel_on_recognizing
    (if cancel_2 ∧ ¬ cancel_1 then -1
     else if ¬ cancel_2 ∧ cancel_1 then 1
     else 0, w)
  else
    let cancel_2 := setup_influence_on_other_gesture w id1 id2
    let cancel_1 := setup_influence_on_other_gesture w id2 id1
    let g1 := w.gesture id1
    let w := w.setG id1
      { g1 with in_relationship_with := g1.in_relationship_with ++ [id2],
                cancel_on_recognizing :=
                  if cancel_2 then g1.cancel_on_recognizing ++ [id2]
                  else g1.cancel_on_recognizing }
    let g2 := w.gesture id2
    let w := w.setG id2
      { g2 with in_relationship_with := g2.in_relationship_with ++ [id1],
                cancel_on_recognizing :=
                  if cancel_1 then g2.cancel_on_recognizing ++ [id1]
                  else g2.cancel_on_recognizing }
    (if cancel_2 ∧ ¬ cancel_1 then -1
     else if ¬ cancel_2 ∧ cancel_1 then 1
     else 0, w)

end GestureModel

namespace SettingsModel

/-- get_next_click_timeout_ms of clutter-click-gesture.c: a negative
double-click-time from the settings store falls back to 100 ms, otherwise
the int is returned through the unsigned return type. -/
def get_next_click_timeout_ms (double_click_time_ms : Int) : Nat :=
  if double_click_time_ms < 0 then 100
  else (double_click_time_ms % (2 ^ 32)).toNat

/-- get_default_cancel_threshold of clutter-click-gesture.c (identical in
clutter-long-press-gesture.c): a negative dnd-drag-threshold falls back
to 0. -/
def get_default_cancel_threshold (threshold : Int) : Nat :=
  if threshold < 0 then 0
  else (threshold % (2 ^ 32)).toNat

/-- get_default_long_press_duration of clutter-long-press-gesture.c: the
long-press-duration read from the settings store is returned through the
unsigned return type without any negativity check (the int-to-unsigned
conversion wraps modulo 2^32). -/
def get_default_long_press_duration (long_press_duration : Int) : Nat :=
  (long_press_duration % (2 ^ 32)).toNat

end SettingsModel

namespace PanModel

/-- Unsigned 32-bit subtraction as performed by the uint32_t arithmetic in
clutter-pan-gesture.c. -/
def u32_sub (a b : Nat) : Nat := (a % 2 ^ 32 + 2 ^ 32 - b % 2 ^ 32) % 2 ^ 32

/-- HistoryEntry of clutter-pan-gesture.c: one per-event delta vector with
its timestamp.  The delta components are modelled as integers: every input
of the claims is integral and small enough that the float arithmetic of
the C code is exact on it. -/
structure HistoryEntry where
  delta_x : Int := 0
  delta_y : Int := 0
  time : Nat := 0
deriving DecidableEq, Repr, Inhabited

/-- Rolling event history of ClutterPanGesturePrivate: a ring buffer of at
most EVENT_HISTORY_MAX_LENGTH = 150 / 1 entries with its write index. -/
structure PanHistory where
  event_history : List HistoryEntry := []
  event_history_begin_index : Nat := 0
deriving DecidableEq, Repr, Inhabited

/-- add_delta_to_event_history: skip the entry when the previous one is
less than EVENT_HISTORY_MIN_STORE_INTERVAL_MS = 1 ms old (the comparison
time - 1 is unsigned), grow the array up to 150 entries and write at the
ring index. -/
def add_delta_to_event_history (ph : PanHistory) (dx dy : Int) (time : Nat) :
    PanHistory :=
  let last_entry : Option HistoryEntry :=
    if ph.event_history.length = 0 then none
    else some (ph.event_history.getD
      ((u32_sub ph.event_history_begin_index 1) % 150) default)
  match last_entry with
  | some le =>
      if le.time > u32_sub time 1 then ph
      else
        let hist :=
          if ph.event_history.length < 150 then ph.event_history ++ [default]
          else ph.event_history
        { event_history :=
            hist.set ph.event_history_begin_index
              { delta_x := dx, delta_y := dy, time := time },
          event_history_begin_index := (ph.event_history_begin_index + 1) % 150 }
  | none =>
      let hist :=
        if ph.event_history.length < 150 then ph.event_history ++ [default]
        else ph.event_history
      { event_history :=
          hist.set ph.event_history_begin_index
            { delta_x := dx, delta_y := dy, time := time },
        event_history_begin_index := (ph.event_history_begin_index + 1) % 150 }

/-- Loop of calculate_velocity: visit the ring buffer starting at the
begin index, accumulate the deltas of the entries inside the window, and
track the first and last such timestamp.  The window lower bound
latest_event_time - EVENT_HISTORY_DURATION_MS is computed in uint32_t
arithmetic. -/
def calc_velocity_go (hist : List HistoryEntry) (latest_event_time : Nat) :
    Nat → Nat → Nat → Nat → Int × Int → Nat × Nat × (Int × Int)
  | 0, _, first_time, last_time, acc => (first_time, last_time, acc)
  | i + 1, j, first_time, last_time, acc =>
      let j := if j = hist.length then 0 else j
      let e := hist.getD j default
      if e.time ≥ u32_sub latest_event_time 150 then
        let first_time := if first_time = 0 then e.time else first_time
        calc_velocity_go hist latest_event_time i (j + 1) first_time e.time
          (acc.1 + e.delta_x, acc.2 + e.delta_y)
      else
        calc_velocity_go hist latest_event_time i (j + 1) first_time last_time acc

/-- calculate_velocity of clutter-pan-gesture.c in pixels per
millisecond. -/
def calculate_velocity (ph : PanHistory) (latest_event_time : Nat) : ℚ × ℚ :=
  let r := calc_velocity_go ph.event_history latest_event_time
    ph.event_history.length ph.event_history_begin_index 0 0 (0, 0)
  let first_time := r.1
  let last_time := r.2.1
  let acc := r.2.2
  if first_time = last_time then (0, 0)
  else
    let time_delta : Nat := u32_sub last_time first_time
    ((acc.1 : ℚ) / (time_delta : ℚ), (acc.2 : ℚ) / (time_delta : ℚ))

/-- get_delta_from_points: axis-wise signed maximum reduction of the
per-point deltas (move_coords - last_coords per point). -/
def get_delta_from_points (deltas : List (Int × Int)) : Int × Int :=
  let r := deltas.foldl
    (fun (acc : (Int × Int) × (Int × Int)) (d : Int × Int) =>
      let pos := acc.1
      let neg := acc.2
      let pos2 : Int × Int :=
        if d.1 > 0 then (if d.1 > pos.1 then d.1 else pos.1, pos.2) else pos
      let neg2 : Int × Int :=
        if d.1 > 0 then neg else (if d.1 < neg.1 then d.1 else neg.1, neg.2)
      let pos3 : Int × Int :=
        if d.2 > 0 then (pos2.1, if d.2 > pos2.2 then d.2 else pos2.2) else pos2
      let neg3 : Int × Int :=
        if d.2 > 0 then neg2 else (neg2.1, if d.2 < neg2.2 then d.2 else neg2.2)
      (pos3, neg3))
    (((0, 0), (0, 0)) : (Int × Int) × (Int × Int))
  (r.1.1 + r.2.1, r.1.2 + r.2.2)

/-- Event history produced by the spec scenario of claim C9 on a pan with
begin-threshold 0: points_began at TOUCH_BEGIN (0,0) t=0 stores the zero
delta because the history is empty, and each TOUCH_UPDATE stores the delta
move_coords - last_coords of its single point ((10,0) at t=50 and (10,0)
at t=100). -/
def scenario_history : PanHistory :=
  let ph : PanHistory := {}
  let ph := add_delta_to_event_history ph 0 0 0
  let d1 := get_delta_from_points [((10 : Int) - 0, (0 : Int) - 0)]
  let ph := add_delta_to_event_history ph d1.1 d1.2 50
  let d2 := get_delta_from_points [((20 : Int) - 10, (0 : Int) - 0)]
  add_delta_to_event_history ph d2.1 d2.2 100

end PanModel

namespace FailureDependencyModel

/-- Modelled from the spec: the RECOGNIZE_PENDING failure-dependency
engine (clutter_gesture_require_failure_of and the RECOGNIZE_PENDING
state).  The API is declared in src/clutter/clutter/clutter-gesture.h and
exercised by src/src/tests/clutter/conform/gesture-relationship.c, but the
revision of clutter-gesture.c under src/ predates it and contains neither
the state nor the implementation; the definitions below follow the spec
text of section 4.2 (Failure dependencies). -/
inductive PState where
  | waiting
  | possible
  | recognizePending
  | recognizing
  | completed
  | cancelled
deriving DecidableEq, Repr, Inhabited

/-- Modelled from the spec: a gesture of the failure-dependency engine:
its state, its inhibit-until-cancelled-of peer set (populated by
require_failure_of) and the remembered target of a pending RECOGNIZING or
COMPLETED request. -/
structure FGesture where
  state : PState := .possible
  inhibit_until_cancelled_of : List Nat := []
  pending_target : Option PState := none
deriving Inhabited

/-- World of the failure-dependency engine, indexed by gesture id. -/
structure FWorld where
  gestures : Nat → FGesture

/-- Look up a gesture of the failure-dependency engine. -/
def FWorld.gesture (w : FWorld) (i : Nat) : FGesture := w.gestures i

/-- Modelled from the spec: a peer blocks promotion while it is still in
POSSIBLE, RECOGNIZE_PENDING or RECOGNIZING. -/
def peer_live (w : FWorld) (p : Nat) : Bool :=
  (w.gesture p).state = PState.possible ∨
  (w.gesture p).state = PState.recognizePending ∨
  (w.gesture p).state = PState.recognizing

/-- Modelled from the spec: promotion of a gesture whose pending request
is finally granted: it moves to RECOGNIZING, and on to COMPLETED when the
pending request was for COMPLETED. -/
def promote (g : FGesture) : FGesture :=
  match g.pending_target with
  | some t =>
      { g with
        state := if t = PState.completed then .completed else .recognizing,
        pending_target := none }
  | none => { g with state := .recognizing }

/-- Modelled from the spec: a recognizer requests RECOGNIZING (or the
COMPLETED jump) from POSSIBLE.  While any inhibit-until-cancelled-of peer
is still live the state becomes RECOGNIZE_PENDING and the target is
remembered; otherwise the gesture recognizes at once and every gesture
left pending on it moves to CANCELLED (on peer recognized, self moves to
CANCELLED). -/
def request_state (w : FWorld) (id : Nat) (target : PState) : FWorld :=
  let g := w.gesture id
  if g.state = PState.possible ∧
     (target = PState.recognizing ∨ target = PState.completed) then
    if g.inhibit_until_cancelled_of.any (fun p => peer_live w p) then
      { gestures := fun j =>
          if j = id then
            { g with state := .recognizePending, pending_target := some target }
          else w.gestures j }
    else
      let w' : FWorld :=
        { gestures := fun j =>
            if j = id then
              { g with
                state := if target = PState.completed then .completed
                         else .recognizing }
            else w.gestures j }
      { gestures := fun j =>
          let gj := w'.gestures j
          if j ≠ id ∧ gj.state = PState.recognizePending ∧
             id ∈ gj.inhibit_until_cancelled_of then
            { gj with state := .cancelled, pending_target := none }
          else gj }
  else w

/-- Modelled from the spec: moving a gesture to CANCELLED re-evaluates
every watcher: a gesture in RECOGNIZE_PENDING all of whose
inhibit-until-cancelled-of peers have now reached CANCELLED is promoted
within the same call chain. -/
def set_cancelled (w : FWorld) (id : Nat) : FWorld :=
  let w' : FWorld :=
    { gestures := fun j =>
        if j = id then
          { w.gestures j with state := .cancelled, pending_target := none }
        else w.gestures j }
  { gestures := fun j =>
      let gj := w'.gestures j
      if gj.state = PState.recognizePending ∧
         gj.inhibit_until_cancelled_of.all
           (fun p => (w'.gestures p).state = PState.cancelled) then
        promote gj
      else gj }

end FailureDependencyModel

namespace GestureModel

/-- clutter_gesture_can_not_cancel: record the override that self must not
cancel other_gesture on recognizing (idempotent set insertion). -/
def clutter_gesture_can_not_cancel (w : World) (selfId otherId : Nat) : World :=
  let g := w.gesture selfId
  if otherId ∈ g.can_not_cancel then w
  else w.setG selfId { g with can_not_cancel := g.can_not_cancel ++ [otherId] }

/-- clutter_gesture_recognize_independently_from: record the override that
self may start while other_gesture is RECOGNIZING (idempotent set
insertion). -/
def clutter_gesture_recognize_independently_from (w : World) (selfId otherId : Nat) : World :=
  let g := w.gesture selfId
  if otherId ∈ g.recognize_independently_from then w
  else w.setG selfId
    { g with recognize_independently_from :=
        g.recognize_independently_from ++ [otherId] }

/-- External operations of the gesture core: the public set_state entry,
the event dispatcher's should_handle_sequence and handle_event calls, the
pairing call, the detach path (cancel_all_points), the batch sequence
cancellation and the two public relationship overrides. -/
inductive Step where
  | apiSetState (id : Nat) (s : GState)
  | shouldHandle (id : Nat) (e : Event)
  | handle (id : Nat) (e : Event)
  | pair (id1 id2 : Nat)
  | detach (id : Nat)
  | seqCancelled (id device : Nat) (sequences : List Nat)
  | apiCanNotCancel (id1 id2 : Nat)
  | apiRecognizeIndependently (id1 id2 : Nat)

/-- Interpret one external operation. -/
def apply_step (w : World) : Step → World
  | .apiSetState id s => clutter_gesture_set_state w id s
  | .shouldHandle id e => (should_handle_sequence w id e).2
  | .handle id e => handle_event w id e
  | .pair id1 id2 => (setup_sequence_relationship w id1 id2).2
  | .detach id => cancel_all_points w id
  | .seqCancelled id d seqs => cancel_points_by_sequences w id d seqs
  | .apiCanNotCancel id1 id2 => clutter_gesture_can_not_cancel w id1 id2
  | .apiRecognizeIndependently id1 id2 =>
      clutter_gesture_recognize_independently_from w id1 id2

/-- World at program start: every gesture is freshly initialized by
clutter_gesture_init and no gesture is active. -/
def init_world : World := { gestures := fun _ => {} }

/-- Run a sequence of external operations from the initial world. -/
def run (steps : List Step) : World := steps.foldl apply_step init_world

/-- Point-set invariant of one gesture: empty private and public point
sets in WAITING, and an empty public point set in COMPLETED and
CANCELLED. -/
def points_invariant (g : Gesture) : Prop :=
  (g.state = GState.waiting → g.points = [] ∧ g.public_points = []) ∧
  (g.state = GState.completed ∨ g.state = GState.cancelled →
    g.public_points = [])

/-- World-wide form of the point-set invariant. -/
def world_points_invariant (w : World) : Prop :=
  ∀ i, points_invariant (w.gesture i)

/-- Private point helper for the concrete worlds below: a pressed pointer
point of the given device and sequence. -/
def mk_point (d s : Nat) : PrivPoint :=
  { device := d, sequence := s, source_device := d, n_buttons_pressed := 1 }

/-- Concrete world for claim C1: two gestures sharing the pointer point
(1,0), both POSSIBLE, mutually related and mutually cancelling. -/
def c1_world : World :=
  { gestures := fun j =>
      if j = 0 then
        { state := .possible, points := [mk_point 1 0],
          public_points := [{ index := 0 }],
          in_relationship_with := [1], cancel_on_recognizing := [1] }
      else if j = 1 then
        { state := .possible, points := [mk_point 1 0],
          public_points := [{ index := 0 }],
          in_relationship_with := [0], cancel_on_recognizing := [0] }
      else {},
    all_active_gestures := [0, 1] }

/-- Concrete world for the C3 counterexample: gesture 0 is RECOGNIZING and
gesture 1, unrelated and in state POSSIBLE, is listed in gesture 0's
recognize-independently-from set (the direction the claim describes). -/
def c3_world : World :=
  { gestures := fun j =>
      if j = 0 then
        { state := .recognizing, points := [mk_point 1 0],
          recognize_independently_from := [1] }
      else if j = 1 then
        { state := .possible, points := [mk_point 2 0] }
      else {},
    all_active_gestures := [0, 1] }

/-- Concrete world for the amended C3 theorem: as c3_world, but the
override is registered on the starting gesture 1 (the direction the code
implements). -/
def c3_world_allowed : World :=
  { gestures := fun j =>
      if j = 0 then
        { state := .recognizing, points := [mk_point 1 0] }
      else if j = 1 then
        { state := .possible, points := [mk_point 2 0],
          recognize_independently_from := [0] }
      else {},
    all_active_gestures := [0, 1] }

/-- Concrete world for claim C4: one POSSIBLE gesture holding a point. -/
def c4_world : World :=
  { gestures := fun j =>
      if j = 0 then
        { state := .possible, points := [mk_point 1 0],
          public_points := [{ index := 0 }] }
      else {},
    all_active_gestures := [0] }

/-- Concrete world for the refused branch of claim C4: as c4_world but a
may-recognize handler vetoes recognition. -/
def c4_world_vetoed : World :=
  { gestures := fun j =>
      if j = 0 then
        { state := .possible, points := [mk_point 1 0],
          public_points := [{ index := 0 }], may_recognize := false }
      else {},
    all_active_gestures := [0] }

/-- Button press event on device 1 used by the claim C6 scenario. -/
def c6_press : Event :=
  { type := .buttonPress, device := 1, sequence := 0, source_device := 1,
    source_device_type := 0, x := 15, y := 15, time := 10, synthetic := false }

/-- Button release event matching c6_press. -/
def c6_release : Event := { c6_press with type := .buttonRelease, time := 20 }

/-- Concrete world for claim C6: a single bare gesture in WAITING. -/
def c6_world : World := { gestures := fun _ => {} }

/-- State of the C6 scenario after the press was offered and handled and
the release was handled. -/
def c6_after : World :=
  let r := should_handle_sequence c6_world 0 c6_press
  let w1 := handle_event r.2 0 c6_press
  handle_event w1 0 c6_release

/-- Concrete world for claim C7: a single gesture in RECOGNIZING holding
the claimed point (1,7). -/
def c7_world : World :=
  { gestures := fun j =>
      if j = 0 then
        { state := .recognizing,
          points := [{ device := 1, sequence := 7, source_device := 1,
                       n_buttons_pressed := 0 }],
          public_points := [{ index := 0 }] }
      else {},
    all_active_gestures := [0],
    claimed := [(0, 1, 7)],
    state_changed_log := [(0, .possible, .recognizing)] }

/-- Concrete world for claim C8: a single gesture in WAITING. -/
def c8_world : World := { gestures := fun _ => {} }

/-- Verification relation: between two worlds, gesture j keeps its state,
point sets and cancel_on_recognizing list. -/
def fields_at (j : Nat) (w w' : World) : Prop :=
  ((w'.gesture j).state = (w.gesture j).state) ∧
  ((w'.gesture j).points = (w.gesture j).points) ∧
  ((w'.gesture j).public_points = (w.gesture j).public_points) ∧
  ((w'.gesture j).cancel_on_recognizing = (w.gesture j).cancel_on_recognizing)

/-- Verification relation: fields_at j plus preservation of every
in_relationship_with membership other than s itself (an operation acting
on gesture s can remove at most s from peer relationship tables). -/
def frame_at (s j : Nat) (w w' : World) : Prop :=
  fields_at j w w' ∧
  (∀ x, x ≠ s →
    (x ∈ (w'.gesture j).in_relationship_with ↔
     x ∈ (w.gesture j).in_relationship_with))

end GestureModel

namespace FailureDependencyModel

/-- Concrete world for claim C2: gesture 0 is POSSIBLE and requires the
failure of gesture 1, which is also POSSIBLE. -/
def c2_world : FWorld :=
  { gestures := fun j =>
      if j = 0 then { state := .possible, inhibit_until_cancelled_of := [1] }
      else { state := .possible } }

end FailureDependencyModel

namespace GestureModel

theorem gesture_setG_same (w : World) (i : Nat) (g : Gesture) :
    (w.setG i g).gesture i = g := by
  simp [World.setG, World.gesture]

theorem gesture_setG_other (w : World) {i j : Nat} (g : Gesture)
    (h : j ≠ i) : (w.setG i g).gesture j = w.gesture j := by
  simp [World.setG, World.gesture, h]

theorem active_setG (w : World) (i : Nat) (g : Gesture) :
    (w.setG i g).all_active_gestures = w.all_active_gestures := rfl

theorem claimed_setG (w : World) (i : Nat) (g : Gesture) :
    (w.setG i g).claimed = w.claimed := rfl

theorem log_setG (w : World) (i : Nat) (g : Gesture) :
    (w.setG i g).state_changed_log = w.state_changed_log := rfl

theorem gesture_log (w : World) (i j : Nat) (a b : GState) :
    (w.logStateChanged i a b).gesture j = w.gesture j := rfl

/-- Claim C8: a set_state request for a transition outside the legal
table leaves every gesture (and in particular the requesting gesture's
state) unchanged; a g_warning diagnostic is emitted exactly when the
requested state is not CANCELLED, and an unnecessary cancel request is a
complete no-op. -/
theorem C8_illegal_request_ignored (w : World) (id : Nat) (s : GState)
    (h : legal_request (w.gesture id).state s = false) :
    (clutter_gesture_set_state w id s).gestures = w.gestures ∧
    ((clutter_gesture_set_state w id s).gesture id).state =
      (w.gesture id).state ∧
    (clutter_gesture_set_state w id s).warnings =
      (if s = GState.cancelled then w.warnings else w.warnings + 1) ∧
    (s = GState.cancelled → clutter_gesture_set_state w id s = w) := by
  unfold clutter_gesture_set_state
  rw [h]
  simp only [Bool.false_eq_true, if_false]
  by_cases hs : s = GState.cancelled
  · simp [hs, World.gesture]
  · simp [hs, World.gesture]

/-- Witness for C8 at a concrete input: requesting COMPLETED from WAITING
is illegal, changes nothing and emits one diagnostic. -/
theorem C8_illegal_request_ignored_witness :
    (clutter_gesture_set_state c8_world 0 .completed).gestures =
      c8_world.gestures ∧
    ((clutter_gesture_set_state c8_world 0 .completed).gesture 0).state =
      (c8_world.gesture 0).state ∧
    (clutter_gesture_set_state c8_world 0 .completed).warnings =
      (if GState.completed = GState.cancelled then c8_world.warnings
       else c8_world.warnings + 1) ∧
    (GState.completed = GState.cancelled →
      clutter_gesture_set_state c8_world 0 .completed = c8_world) :=
  C8_illegal_request_ignored c8_world 0 .completed (by decide)

end GestureModel

namespace SettingsModel

/-- Claim C10, counterexample: with the settings store returning -1, the
long-press recognizer's default-duration getter does not return the
claimed built-in 500 ms default; the int-to-unsigned conversion yields
4294967295. -/
theorem C10_counterexample :
    get_default_long_press_duration (-1) = 4294967295 ∧
    get_default_long_press_duration (-1) ≠ 500 := by decide

/-- Claim C10 as amended: for a negative settings value (within the int
range) the double-click interval falls back to 100 ms and the drag
threshold to 0, but the long-press duration getter applies no built-in
default and returns the settings value converted to unsigned. -/
theorem C10_negative_settings (v : Int) (h : v < 0) (h2 : -(2 ^ 32) < v) :
    get_next_click_timeout_ms v = 100 ∧
    get_default_cancel_threshold v = 0 ∧
    get_default_long_press_duration v = (v + 2 ^ 32).toNat := by
  refine ⟨by simp [get_next_click_timeout_ms, h], by simp [get_default_cancel_threshold, h], ?_⟩
  unfold get_default_long_press_duration
  congr 1
  omega

/-- Witness for C10 at the concrete settings value -1. -/
theorem C10_negative_settings_witness :
    get_next_click_timeout_ms (-1) = 100 ∧
    get_default_cancel_threshold (-1) = 0 ∧
    get_default_long_press_duration (-1) = ((-1 : Int) + 2 ^ 32).toNat :=
  C10_negative_settings (-1) (by decide) (by decide)

end SettingsModel

namespace PanModel

/-- Claim C9: on the spec scenario (pan with begin-threshold 0,
TOUCH_BEGIN at (0,0) t=0, TOUCH_UPDATE at (10,0) t=50, TOUCH_UPDATE at
(20,0) t=100, TOUCH_END at t=100) the velocity computed by
calculate_velocity at the completing event time is (0,0), not the
(0.2, 0) px/ms the claim derives from the window formula: the window
lower bound 100 - 150 underflows in uint32_t arithmetic, so no history
entry qualifies. -/
theorem C9_scenario_velocity_zero :
    calculate_velocity scenario_history 100 = (0, 0) ∧
    ((0 : ℚ), (0 : ℚ)) ≠ ((1 : ℚ) / 5, 0) := by
  refine ⟨by decide, ?_⟩
  intro h
  have hx : (0 : ℚ) = 1 / 5 := congrArg Prod.fst h
  norm_num at hx

end PanModel

namespace FailureDependencyModel

theorem set_cancelled_promotes (w : FWorld) (id j : Nat) (hne : j ≠ id)
    (hpend : (w.gesture j).state = .recognizePending)
    (hall : ∀ p ∈ (w.gesture j).inhibit_until_cancelled_of,
      p = id ∨ (w.gesture p).state = .cancelled) :
    (set_cancelled w id).gesture j = promote (w.gesture j) := by
  unfold set_cancelled
  simp only [FWorld.gesture]
  have hj : (if j = id then
      { w.gestures j with state := PState.cancelled, pending_target := none }
     else w.gestures j) = w.gestures j := by rw [if_neg hne]
  rw [hj]
  have hcond : (w.gestures j).state = PState.recognizePending ∧
      ((w.gestures j).inhibit_until_cancelled_of.all
        (fun p =>
          (if p = id then
            { w.gestures p with state := PState.cancelled,
                                pending_target := none }
           else w.gestures p).state = PState.cancelled)) = true := by
    refine ⟨hpend, List.all_eq_true.2 ?_⟩
    intro q hq
    by_cases hqid : q = id
    · simp [hqid]
    · rcases hall q hq with h | h
      · exact absurd h hqid
      · simp [hqid]
        exact h
  rw [if_pos hcond]

/-- Claim C2 (against the spec-modelled failure-dependency engine): a
gesture requesting RECOGNIZING or COMPLETED from POSSIBLE while a
require-failure-of peer is still live enters RECOGNIZE_PENDING, and
cancelling the last live peer promotes it to RECOGNIZING, continuing to
COMPLETED when the pending request was for COMPLETED. -/
theorem C2_failure_dependency (w : FWorld) (g1 g2 : Nat) (t : PState)
    (h12 : g1 ≠ g2)
    (hs1 : (w.gesture g1).state = .possible)
    (hs2 : (w.gesture g2).state = .possible)
    (hmem : g2 ∈ (w.gesture g1).inhibit_until_cancelled_of)
    (hothers : ∀ q ∈ (w.gesture g1).inhibit_until_cancelled_of,
      q = g2 ∨ (w.gesture q).state = .cancelled)
    (ht : t = PState.recognizing ∨ t = PState.completed) :
    ((request_state w g1 t).gesture g1).state = .recognizePending ∧
    ((set_cancelled (request_state w g1 t) g2).gesture g1).state =
      (if t = PState.completed then PState.completed
       else PState.recognizing) := by
  have hlive : (w.gesture g1).inhibit_until_cancelled_of.any
      (fun p => peer_live w p) = true := by
    refine List.any_eq_true.2 ⟨g2, hmem, ?_⟩
    simp [peer_live, hs2]
  have hreq : request_state w g1 t =
      { gestures := fun j =>
          if j = g1 then
            { w.gesture g1 with state := .recognizePending,
                                pending_target := some t }
          else w.gestures j } := by
    unfold request_state
    rw [if_pos ⟨hs1, ht⟩, if_pos hlive]
  have hg1ne : ∀ q ∈ (w.gesture g1).inhibit_until_cancelled_of, q ≠ g1 := by
    intro q hq hqe
    rcases hothers q hq with h | h
    · exact h12 (hqe ▸ h.symm).symm
    · rw [hqe, hs1] at h; exact absurd h (by decide)
  have hw1g1 : ((request_state w g1 t).gesture g1) =
      { w.gesture g1 with state := .recognizePending,
                          pending_target := some t } := by
    rw [hreq]; simp [FWorld.gesture]
  have hw1other : ∀ p, p ≠ g1 →
      ((request_state w g1 t).gesture p) = w.gesture p := by
    intro p hp
    rw [hreq]; simp [FWorld.gesture, hp]
  refine ⟨by rw [hw1g1], ?_⟩
  rw [set_cancelled_promotes (request_state w g1 t) g2 g1 h12 ?_ ?_]
  · rw [hw1g1]; rfl
  · rw [hw1g1]
  · intro p hp
    rw [hw1g1] at hp
    simp only at hp
    by_cases hpg2 : p = g2
    · exact Or.inl hpg2
    · rcases hothers p hp with h | h
      · exact absurd h hpg2
      · rw [hw1other p (hg1ne p hp)]
        exact Or.inr h

end FailureDependencyModel

namespace GestureModel

theorem gesture_mk (f : Nat → Gesture) (a : List Nat)
    (c : List (Nat × Nat × Nat)) (l : List (Nat × GState × GState)) (n : Nat)
    (i : Nat) : (World.mk f a c l n).gesture i = f i := rfl

theorem gesture_fun_eq (w : World) (i : Nat) : w.gestures i = w.gesture i := rfl

theorem frame_at_refl (s j : Nat) (w : World) : frame_at s j w w :=
  ⟨⟨rfl, rfl, rfl, rfl⟩, fun _ _ => Iff.rfl⟩

theorem frame_at_trans {s j : Nat} {w w' w'' : World}
    (h1 : frame_at s j w w') (h2 : frame_at s j w' w'') : frame_at s j w w'' := by
  rcases h1 with ⟨⟨a1, a2, a3, a4⟩, a5⟩
  rcases h2 with ⟨⟨b1, b2, b3, b4⟩, b5⟩
  exact ⟨⟨b1.trans a1, b2.trans a2, b3.trans a3, b4.trans a4⟩,
    fun x hx => (b5 x hx).trans (a5 x hx)⟩

theorem unrelate_frame (l : List Nat) (w : World) (s j : Nat) :
    frame_at s j w (unrelate_all w l s) := by
  induction l generalizing w with
  | nil => exact frame_at_refl s j w
  | cons o rest ih =>
      have hstep : unrelate_all w (o :: rest) s =
          unrelate_all
            (w.setG o
              { w.gesture o with
                in_relationship_with :=
                  (w.gesture o).in_relationship_with.erase s }) rest s := rfl
      rw [hstep]
      refine frame_at_trans ?_ (ih _)
      by_cases hjo : j = o
      · subst hjo
        refine ⟨?_, ?_⟩
        · rw [fields_at]
          rw [gesture_setG_same]
          exact ⟨rfl, rfl, rfl, rfl⟩
        · intro x hx
          rw [gesture_setG_same]
          exact List.mem_erase_of_ne hx
      · rw [frame_at, fields_at, gesture_setG_other w _ hjo]
        exact ⟨⟨rfl, rfl, rfl, rfl⟩, fun x _ => Iff.rfl⟩

theorem sss_frame (w : World) (s : Nat) (ns : GState) (j : Nat) (hj : j ≠ s) :
    frame_at s j w (set_state_simple w s ns) := by
  unfold set_state_simple
  split
  · exact frame_at_refl s j w
  split
  · exact frame_at_refl s j w
  split
  · split
    · exact frame_at_refl s j w
    · rw [frame_at, fields_at]
      simp [gesture_log, gesture_setG_other _ _ hj, gesture_mk, gesture_fun_eq]
  split
  · have hu := unrelate_frame ((w.gesture s).in_relationship_with)
      { w with all_active_gestures := w.all_active_gestures.erase s } s j
    rcases hu with ⟨⟨h1, h2, h3, h4⟩, h5⟩
    rw [frame_at, fields_at]
    simp only [gesture_log, gesture_setG_other _ _ hj]
    exact ⟨⟨h1, h2, h3, h4⟩, fun x hx => h5 x hx⟩
  · rw [frame_at, fields_at]
    simp [gesture_log, gesture_setG_other _ _ hj, gesture_mk, gesture_fun_eq]

theorem mmtw_frame (w : World) (s j : Nat) (hj : j ≠ s) :
    frame_at s j w (maybe_move_to_waiting w s) := by
  unfold maybe_move_to_waiting
  split
  · exact sss_frame w s .waiting j hj
  · exact frame_at_refl s j w

theorem sss_cancelled_self_state (w : World) (s : Nat) :
    ((set_state_simple w s .cancelled).gesture s).state = .cancelled ∨
    (set_state_simple w s .cancelled = w ∧
      ((w.gesture s).state = .waiting ∨ (w.gesture s).state = .completed)) := by
  rcases hst : (w.gesture s).state with _ | _ | _ | _ | _
  · refine Or.inr ⟨?_, Or.inl rfl⟩
    unfold set_state_simple
    rw [hst]
    simp [legal_transition]
  · refine Or.inl ?_
    unfold set_state_simple
    rw [hst]
    simp [legal_transition, gesture_log, gesture_setG_same]
  · refine Or.inl ?_
    unfold set_state_simple
    rw [hst]
    simp [legal_transition, gesture_log, gesture_setG_same]
  · refine Or.inr ⟨?_, Or.inr rfl⟩
    unfold set_state_simple
    rw [hst]
    simp [legal_transition]
  · refine Or.inl ?_
    unfold set_state_simple
    rw [hst]
    simp [legal_transition, gesture_log, gesture_setG_same, hst]

theorem miog_nop (w : World) (s : Nat)
    (h1 : (w.gesture s).state ≠ .recognizing)
    (h2 : (w.gesture s).state ≠ .completed) :
    maybe_influence_other_gestures w s = w := by
  unfold maybe_influence_other_gestures
  rw [if_neg]
  rintro (h | h)
  · exact h1 h
  · exact h2 h

theorem sacc_frame (w : World) (v j : Nat) (hj : j ≠ v) :
    frame_at v j w (set_state_auth_cancelled w v) := by
  unfold set_state_auth_cancelled
  have hsss := sss_frame w v .cancelled j hj
  rcases sss_cancelled_self_state w v with hl | ⟨heq, hwc⟩
  · rw [if_pos (Or.inr hl)]
    rw [miog_nop _ _ (by rw [hl]; decide) (by rw [hl]; decide)]
    exact frame_at_trans hsss (mmtw_frame _ v j hj)
  · rw [heq]
    split
    · rename_i hgate
      rcases hwc with hw | hw <;> rw [hw] at hgate <;>
        rcases hgate with h | h <;> simp at h
    · exact frame_at_trans hsss (by rw [heq]; exact mmtw_frame _ v j hj)

end GestureModel

namespace GestureModel


theorem fields_at_refl (j : Nat) (w : World) : fields_at j w w :=
  ⟨rfl, rfl, rfl, rfl⟩

theorem fields_at_trans {j : Nat} {w w' w'' : World}
    (h1 : fields_at j w w') (h2 : fields_at j w' w'') : fields_at j w w'' := by
  rcases h1 with ⟨a1, a2, a3, a4⟩
  rcases h2 with ⟨b1, b2, b3, b4⟩
  exact ⟨b1.trans a1, b2.trans a2, b3.trans a3, b4.trans a4⟩

theorem mcig_step_cases (s k : Nat) (w : World) :
    mcig_step s k w = w ∨
    ∃ v, v ≠ s ∧ v ∉ (w.gesture s).in_relationship_with ∧
      (w.gesture v).state = GState.possible ∧
      mcig_step s k w = set_state_auth_cancelled w v := by
  unfold mcig_step
  split
  · split
    · exact Or.inl rfl
    split
    · exact Or.inl rfl
    split
    · rename_i h1 h2 h3
      exact Or.inr ⟨_, h1, h2, h3.1, rfl⟩
    · exact Or.inl rfl
  · exact Or.inl rfl

theorem mcig_fields_self (s : Nat) :
    ∀ (k : Nat) (w : World), fields_at s w (mcig_go s k w) := by
  intro k
  induction k with
  | zero => exact fun w => fields_at_refl s w
  | succ k ih =>
      intro w
      have hrec : mcig_go s (k + 1) w = mcig_go s k (mcig_step s k w) := rfl
      rw [hrec]
      rcases mcig_step_cases s k w with he | ⟨v, hvs, _, _, he⟩
      · rw [he]; exact ih w
      · rw [he]
        exact fields_at_trans
          (sacc_frame w v s (fun h => hvs h.symm)).1
          (ih (set_state_auth_cancelled w v))

theorem mcig_protected (s x : Nat) :
    ∀ (k : Nat) (w : World),
      x ∈ (w.gesture s).in_relationship_with →
      fields_at x w (mcig_go s k w) ∧
      x ∈ ((mcig_go s k w).gesture s).in_relationship_with := by
  intro k
  induction k with
  | zero => exact fun w hx => ⟨fields_at_refl x w, hx⟩
  | succ k ih =>
      intro w hx
      have hrec : mcig_go s (k + 1) w = mcig_go s k (mcig_step s k w) := rfl
      rw [hrec]
      rcases mcig_step_cases s k w with he | ⟨v, hvs, hvrel, _, he⟩
      · rw [he]; exact ih w hx
      · rw [he]
        have hvx : x ≠ v := fun h => hvrel (h ▸ hx)
        have hframe_x := sacc_frame w v x hvx
        have hframe_s := sacc_frame w v s (fun h => hvs h.symm)
        have hx' : x ∈
            ((set_state_auth_cancelled w v).gesture s).in_relationship_with :=
          (hframe_s.2 x hvx).2 hx
        rcases ih (set_state_auth_cancelled w v) hx' with ⟨hf, hm⟩
        exact ⟨fields_at_trans hframe_x.1 hf, hm⟩

theorem claimed_log (w : World) (i : Nat) (a b : GState) :
    (w.logStateChanged i a b).claimed = w.claimed := rfl

theorem log_log (w : World) (i : Nat) (a b : GState) :
    (w.logStateChanged i a b).state_changed_log =
      w.state_changed_log ++ [(i, a, b)] := rfl

theorem unrelate_log (l : List Nat) (w : World) (s : Nat) :
    (unrelate_all w l s).state_changed_log = w.state_changed_log := by
  induction l generalizing w with
  | nil => rfl
  | cons o rest ih => exact (ih _).trans rfl

theorem unrelate_claimed (l : List Nat) (w : World) (s : Nat) :
    (unrelate_all w l s).claimed = w.claimed := by
  induction l generalizing w with
  | nil => rfl
  | cons o rest ih => exact (ih _).trans rfl

theorem sss_claimed (w : World) (s : Nat) (ns : GState) :
    (set_state_simple w s ns).claimed = w.claimed := by
  unfold set_state_simple
  split
  · rfl
  split
  · rfl
  split
  · split
    · rfl
    · rfl
  split
  · rw [claimed_log, claimed_setG, unrelate_claimed]
  · rfl


theorem mmtw_claimed (w : World) (s : Nat) :
    (maybe_move_to_waiting w s).claimed = w.claimed := by
  unfold maybe_move_to_waiting
  split
  · exact sss_claimed w s .waiting
  · rfl

theorem influence_fold_claimed (s : Nat) (l : List Nat) (w : World) :
    (l.foldl (influence_step s) w).claimed = w.claimed := by
  induction l generalizing w with
  | nil => rfl
  | cons o rest ih =>
      refine (ih _).trans ?_
      unfold influence_step
      split
      · rw [mmtw_claimed, sss_claimed]
      · rfl

theorem miog_claimed (w : World) (s : Nat) :
    (maybe_influence_other_gestures w s).claimed = w.claimed := by
  unfold maybe_influence_other_gestures
  split
  · rw [influence_fold_claimed, claimed_setG]
  · rfl

theorem sacc_claimed (w : World) (v : Nat) :
    (set_state_auth_cancelled w v).claimed = w.claimed := by
  unfold set_state_auth_cancelled
  rw [mmtw_claimed]
  split
  · rw [miog_claimed, sss_claimed]
  · rw [sss_claimed]

theorem mcig_claimed (s : Nat) :
    ∀ (k : Nat) (w : World), (mcig_go s k w).claimed = w.claimed := by
  intro k
  induction k with
  | zero => exact fun _ => rfl
  | succ k ih =>
      intro w
      have hrec : mcig_go s (k + 1) w = mcig_go s k (mcig_step s k w) := rfl
      rw [hrec, ih]
      rcases mcig_step_cases s k w with he | ⟨v, _, _, _, he⟩
      · rw [he]
      · rw [he, sacc_claimed]

theorem log_mono_sss (w : World) (s : Nat) (ns : GState) :
    ∃ t, (set_state_simple w s ns).state_changed_log =
      w.state_changed_log ++ t := by
  unfold set_state_simple
  split
  · exact ⟨[], by simp⟩
  split
  · exact ⟨[], by simp⟩
  split
  · split
    · exact ⟨[], by simp⟩
    · exact ⟨[(s, .waiting, .possible)], by rw [log_log, log_setG]⟩
  split
  · refine ⟨[(s, (w.gesture s).state, .waiting)], ?_⟩
    rw [log_log, log_setG, unrelate_log]
  · exact ⟨[(s, (w.gesture s).state, ns)], by rw [log_log, log_setG]⟩

theorem log_mono_mmtw (w : World) (s : Nat) :
    ∃ t, (maybe_move_to_waiting w s).state_changed_log =
      w.state_changed_log ++ t := by
  unfold maybe_move_to_waiting
  split
  · exact log_mono_sss w s .waiting
  · exact ⟨[], by simp⟩

theorem log_mono_influence_fold (s : Nat) (l : List Nat) (w : World) :
    ∃ t, (l.foldl (influence_step s) w).state_changed_log =
      w.state_changed_log ++ t := by
  induction l generalizing w with
  | nil => exact ⟨[], by simp⟩
  | cons o rest ih =>
      have hstep : ∃ t1, (influence_step s w o).state_changed_log =
          w.state_changed_log ++ t1 := by
        unfold influence_step
        split
        · rcases log_mono_sss w o .cancelled with ⟨t1, h1⟩
          rcases log_mono_mmtw (set_state_simple w o .cancelled) o with ⟨t2, h2⟩
          exact ⟨t1 ++ t2, by rw [h2, h1, List.append_assoc]⟩
        · exact ⟨[], by simp⟩
      rcases hstep with ⟨t1, h1⟩
      rcases ih (influence_step s w o) with ⟨t2, h2⟩
      exact ⟨t1 ++ t2, by
        show (List.foldl (influence_step s) (influence_step s w o) rest).state_changed_log = _
        rw [h2, h1, List.append_assoc]⟩

theorem log_mono_miog (w : World) (s : Nat) :
    ∃ t, (maybe_influence_other_gestures w s).state_changed_log =
      w.state_changed_log ++ t := by
  unfold maybe_influence_other_gestures
  split
  · rcases log_mono_influence_fold s ((w.gesture s).cancel_on_recognizing)
      (w.setG s { w.gesture s with cancel_on_recognizing := [] }) with ⟨t, h⟩
    exact ⟨t, by rw [h, log_setG]⟩
  · exact ⟨[], by simp⟩

theorem log_mono_sacc (w : World) (v : Nat) :
    ∃ t, (set_state_auth_cancelled w v).state_changed_log =
      w.state_changed_log ++ t := by
  unfold set_state_auth_cancelled
  have hbase := log_mono_sss w v .cancelled
  rcases hbase with ⟨t1, h1⟩
  split
  · rcases log_mono_miog (set_state_simple w v .cancelled) v with ⟨t2, h2⟩
    rcases log_mono_mmtw
      (maybe_influence_other_gestures (set_state_simple w v .cancelled) v) v with ⟨t3, h3⟩
    exact ⟨t1 ++ (t2 ++ t3), by rw [h3, h2, h1]; simp [List.append_assoc]⟩
  · rcases log_mono_mmtw (set_state_simple w v .cancelled) v with ⟨t3, h3⟩
    exact ⟨t1 ++ t3, by rw [h3, h1, List.append_assoc]⟩

theorem log_mono_mcig (s : Nat) :
    ∀ (k : Nat) (w : World), ∃ t,
      (mcig_go s k w).state_changed_log = w.state_changed_log ++ t := by
  intro k
  induction k with
  | zero => exact fun w => ⟨[], by rw [List.append_nil]; rfl⟩
  | succ k ih =>
      intro w
      have hrec : mcig_go s (k + 1) w = mcig_go s k (mcig_step s k w) := rfl
      rcases ih (mcig_step s k w) with ⟨t2, h2⟩
      rcases mcig_step_cases s k w with he | ⟨v, _, _, _, he⟩
      · exact ⟨t2, by rw [hrec, h2, he]⟩
      · rcases log_mono_sacc w v with ⟨t1, h1⟩
        exact ⟨t1 ++ t2, by rw [hrec, h2, he, h1, List.append_assoc]⟩


end GestureModel

namespace GestureModel

theorem sss_skip (w : World) (s : Nat) (ns : GState)
    (h : (w.gesture s).state = ns) (hn : ns ≠ GState.recognizing) :
    set_state_simple w s ns = w := by
  unfold set_state_simple
  rw [if_pos ⟨h, hn⟩]

theorem sss_possible_cancelled (w : World) (s : Nat)
    (h : (w.gesture s).state = .possible) :
    set_state_simple w s .cancelled =
      (w.setG s
        { w.gesture s with
          state := .cancelled
          public_points := []
          point_indices := 0 }).logStateChanged s .possible .cancelled := by
  unfold set_state_simple
  rw [h]
  simp [legal_transition]

theorem sss_rec_completed (w : World) (s : Nat)
    (h : (w.gesture s).state = .recognizing) :
    set_state_simple w s .completed =
      (w.setG s
        { w.gesture s with
          state := .completed
          public_points := []
          point_indices := 0 }).logStateChanged s .recognizing .completed := by
  unfold set_state_simple
  rw [h]
  simp [legal_transition]

theorem set_state_nonrec (w : World) (s : Nat) (ns : GState)
    (h : ns ≠ GState.recognizing) :
    set_state w s ns = set_state_simple w s ns := by
  unfold set_state
  rw [if_pos h]

theorem set_state_rec_refused (w : World) (s : Nat)
    (hposs : (w.gesture s).state = .possible)
    (hmay : gesture_may_start w s = false) :
    set_state w s .recognizing = set_state_simple w s .cancelled := by
  unfold set_state
  rw [if_neg (fun hc => hc rfl),
      if_neg (fun hc => hc (by rw [hposs]; rfl)),
      if_pos ⟨hposs, by rw [hmay]; exact Bool.false_ne_true⟩]

theorem set_state_rec_granted (w : World) (s : Nat)
    (hlegal : legal_transition (w.gesture s).state .recognizing = true)
    (hgate : ¬ ((w.gesture s).state = GState.possible ∧
      ¬ gesture_may_start w s = true)) :
    set_state w s .recognizing =
      (maybe_cancel_independent_gestures
        { w.setG s { w.gesture s with state := .recognizing } with
          claimed := w.claimed ++
            (w.gesture s).points.map (fun p => (s, p.device, p.sequence)) }
        s).logStateChanged s (w.gesture s).state .recognizing := by
  unfold set_state
  rw [if_neg (fun hc => hc rfl), if_neg (fun hc => hc hlegal), if_neg hgate]

theorem mmtw_nop_points (w : World) (s : Nat)
    (h : (w.gesture s).points ≠ []) : maybe_move_to_waiting w s = w := by
  unfold maybe_move_to_waiting
  rw [if_neg]
  rintro ⟨h1, _⟩
  exact h h1

theorem mmtw_nop_state (w : World) (s : Nat)
    (h1 : (w.gesture s).state ≠ GState.completed)
    (h2 : (w.gesture s).state ≠ GState.cancelled) :
    maybe_move_to_waiting w s = w := by
  unfold maybe_move_to_waiting
  rw [if_neg]
  rintro ⟨_, h | h⟩
  · exact h1 h
  · exact h2 h

theorem miog_eval (w : World) (s : Nat)
    (h : (w.gesture s).state = GState.recognizing ∨
         (w.gesture s).state = GState.completed) :
    maybe_influence_other_gestures w s =
      ((w.gesture s).cancel_on_recognizing).foldl (influence_step s)
        (w.setG s { w.gesture s with cancel_on_recognizing := [] }) := by
  unfold maybe_influence_other_gestures
  rw [if_pos h]

theorem influence_fold_cancelled_stays (s j : Nat) (l : List Nat) :
    ∀ w, s ∉ l →
      (w.gesture j).state = .cancelled → (w.gesture j).points ≠ [] →
      ((l.foldl (influence_step s) w).gesture j).state = .cancelled ∧
      ((l.foldl (influence_step s) w).gesture j).points = (w.gesture j).points ∧
      fields_at s w (l.foldl (influence_step s) w) := by
  induction l with
  | nil => exact fun w _ hc hp => ⟨hc, rfl, fields_at_refl s w⟩
  | cons o rest ih =>
      intro w hs hc hp
      have hos : o ≠ s := fun h => hs (by rw [h]; exact List.mem_cons_self _ _)
      have hsrest : s ∉ rest := fun h => hs (List.mem_cons_of_mem _ h)
      have hfold : (o :: rest).foldl (influence_step s) w =
          rest.foldl (influence_step s) (influence_step s w o) := rfl
      rw [hfold]
      by_cases hoj : o = j
      · subst hoj
        have hstep : influence_step s w o = w := by
          unfold influence_step
          split
          · rw [sss_skip w o .cancelled hc (by decide),
                mmtw_nop_points w o hp]
          · rfl
        rw [hstep]
        exact ih w hsrest hc hp
      · have hfr1 := sss_frame w o .cancelled j (fun h => hoj h.symm)
        have hfr2 := mmtw_frame (set_state_simple w o .cancelled) o j
          (fun h => hoj h.symm)
        have hfrs1 := sss_frame w o .cancelled s (fun h => hos h.symm)
        have hfrs2 := mmtw_frame (set_state_simple w o .cancelled) o s
          (fun h => hos h.symm)
        have hstep_cases : influence_step s w o = w ∨
            influence_step s w o =
              maybe_move_to_waiting (set_state_simple w o .cancelled) o := by
          unfold influence_step
          split
          · exact Or.inr rfl
          · exact Or.inl rfl
        rcases hstep_cases with he | he
        · rw [he]; exact ih w hsrest hc hp
        · have hjf : fields_at j w (influence_step s w o) := by
            rw [he]; exact fields_at_trans hfr1.1 hfr2.1
          have hsf : fields_at s w (influence_step s w o) := by
            rw [he]; exact fields_at_trans hfrs1.1 hfrs2.1
          rcases ih (influence_step s w o) hsrest
            (by rw [hjf.1, hc]) (by rw [hjf.2.1]; exact hp) with ⟨r1, r2, r3⟩
          refine ⟨r1, ?_, fields_at_trans hsf r3⟩
          rw [r2, hjf.2.1]

theorem influence_fold_cancels (s j : Nat) (hsj : j ≠ s) (l : List Nat) :
    ∀ w, j ∈ l → s ∉ l →
      j ∈ (w.gesture s).in_relationship_with →
      (w.gesture j).state = .possible → (w.gesture j).points ≠ [] →
      ((l.foldl (influence_step s) w).gesture j).state = .cancelled ∧
      fields_at s w (l.foldl (influence_step s) w) := by
  induction l with
  | nil => intro w hj; exact absurd hj (List.not_mem_nil j)
  | cons o rest ih =>
      intro w hjl hs hmem hposs hpts
      have hos : o ≠ s := fun h => hs (by rw [h]; exact List.mem_cons_self _ _)
      have hsrest : s ∉ rest := fun h => hs (List.mem_cons_of_mem _ h)
      have hfold : (o :: rest).foldl (influence_step s) w =
          rest.foldl (influence_step s) (influence_step s w o) := rfl
      rw [hfold]
      by_cases hoj : o = j
      · subst hoj
        have hstep : influence_step s w o =
            (w.setG o
              { w.gesture o with
                state := .cancelled
                public_points := []
                point_indices := 0 }).logStateChanged o .possible .cancelled := by
          unfold influence_step
          rw [if_pos hmem, sss_possible_cancelled w o hposs]
          rw [mmtw_nop_points]
          rw [gesture_log, gesture_setG_same]
          exact hpts
        have hjc : ((influence_step s w o).gesture o).state = .cancelled := by
          rw [hstep, gesture_log, gesture_setG_same]
        have hjp : ((influence_step s w o).gesture o).points =
            (w.gesture o).points := by
          rw [hstep, gesture_log, gesture_setG_same]
        have hsf : fields_at s w (influence_step s w o) := by
          rw [hstep, fields_at]
          rw [gesture_log, gesture_setG_other _ _ hos.symm]
          exact ⟨rfl, rfl, rfl, rfl⟩
        rcases influence_fold_cancelled_stays s o rest (influence_step s w o)
          hsrest hjc (by rw [hjp]; exact hpts) with ⟨r1, _, r3⟩
        exact ⟨r1, fields_at_trans hsf r3⟩
      · have hjrest : j ∈ rest := by
          rcases List.mem_cons.1 hjl with h | h
          · exact absurd h.symm hoj
          · exact h
        have hfr1 := sss_frame w o .cancelled j (fun h => hoj h.symm)
        have hfr2 := mmtw_frame (set_state_simple w o .cancelled) o j
          (fun h => hoj h.symm)
        have hfrs1 := sss_frame w o .cancelled s (fun h => hos h.symm)
        have hfrs2 := mmtw_frame (set_state_simple w o .cancelled) o s
          (fun h => hos h.symm)
        have hstep_cases : influence_step s w o = w ∨
            influence_step s w o =
              maybe_move_to_waiting (set_state_simple w o .cancelled) o := by
          unfold influence_step
          split
          · exact Or.inr rfl
          · exact Or.inl rfl
        rcases hstep_cases with he | he
        · rw [he]; exact ih w hjrest hsrest hmem hposs hpts
        · have hjf : fields_at j w (influence_step s w o) := by
            rw [he]; exact fields_at_trans hfr1.1 hfr2.1
          have hsf : fields_at s w (influence_step s w o) := by
            rw [he]; exact fields_at_trans hfrs1.1 hfrs2.1
          have hmem' : j ∈
              ((influence_step s w o).gesture s).in_relationship_with := by
            rw [he]
            exact (hfrs2.2 j (fun h => hoj h.symm)).2
              ((hfrs1.2 j (fun h => hoj h.symm)).2 hmem)
          rcases ih (influence_step s w o) hjrest hsrest hmem'
            (by rw [hjf.1]; exact hposs) (by rw [hjf.2.1]; exact hpts) with ⟨r1, r2⟩
          exact ⟨r1, fields_at_trans hsf r2⟩

theorem miog_cancels (w : World) (s j : Nat) (hsj : j ≠ s)
    (hst : (w.gesture s).state = GState.recognizing ∨
           (w.gesture s).state = GState.completed)
    (hmem : j ∈ (w.gesture s).cancel_on_recognizing)
    (hrel : j ∈ (w.gesture s).in_relationship_with)
    (hjposs : (w.gesture j).state = .possible)
    (hjpts : (w.gesture j).points ≠ [])
    (hnotself : s ∉ (w.gesture s).cancel_on_recognizing) :
    ((maybe_influence_other_gestures w s).gesture j).state = .cancelled ∧
    ((maybe_influence_other_gestures w s).gesture s).state =
      (w.gesture s).state := by
  rw [miog_eval w s hst]
  have h0 : ∀ p, p ≠ s →
      (w.setG s { w.gesture s with cancel_on_recognizing := [] }).gesture p =
        w.gesture p := fun p hp => gesture_setG_other w _ hp
  have hrel0 : j ∈ ((w.setG s
      { w.gesture s with cancel_on_recognizing := [] }).gesture
        s).in_relationship_with := by
    rw [gesture_setG_same]
    exact hrel
  rcases influence_fold_cancels s j hsj ((w.gesture s).cancel_on_recognizing)
    (w.setG s { w.gesture s with cancel_on_recognizing := [] })
    hmem hnotself hrel0
    (by rw [h0 j hsj]; exact hjposs) (by rw [h0 j hsj]; exact hjpts) with ⟨r1, r2⟩
  refine ⟨r1, ?_⟩
  rw [r2.1, gesture_setG_same]

end GestureModel

namespace GestureModel

theorem gesture_claimed_upd (w : World) (c : List (Nat × Nat × Nat)) (i : Nat) :
    ({ w with claimed := c } : World).gesture i = w.gesture i := rfl

theorem mcig_def (w : World) (s : Nat) :
    maybe_cancel_independent_gestures w s =
      mcig_go s w.all_active_gestures.length w := rfl

/-- Claim C1: when two gestures are both POSSIBLE, share a point, and
mutually cancel-on-recognize, an authoritative transition of the first to
RECOGNIZING leaves the second in CANCELLED when the call returns (and the
first in RECOGNIZING). -/
theorem C1_mutual_cancellation (w : World) (g1 g2 : Nat)
    (h12 : g1 ≠ g2)
    (hs1 : (w.gesture g1).state = .possible)
    (hs2 : (w.gesture g2).state = .possible)
    (hrel12 : g2 ∈ (w.gesture g1).in_relationship_with)
    (hrel21 : g1 ∈ (w.gesture g2).in_relationship_with)
    (hc12 : g2 ∈ (w.gesture g1).cancel_on_recognizing)
    (hc21 : g1 ∈ (w.gesture g2).cancel_on_recognizing)
    (hnotself : g1 ∉ (w.gesture g1).cancel_on_recognizing)
    (hshared : ∃ p ∈ (w.gesture g1).points, ∃ q ∈ (w.gesture g2).points,
        p.device = q.device ∧ p.sequence = q.sequence)
    (hmay : gesture_may_start w g1 = true) :
    ((set_state_authoritative w g1 .recognizing).gesture g1).state =
      .recognizing ∧
    ((set_state_authoritative w g1 .recognizing).gesture g2).state =
      .cancelled := by
  have hpts2 : (w.gesture g2).points ≠ [] := by
    rcases hshared with ⟨p, _, q, hq, _⟩
    intro h
    rw [h] at hq
    exact List.not_mem_nil q hq
  unfold set_state_authoritative
  rw [if_neg (by rintro ⟨_, h⟩; exact absurd h (by decide))]
  rw [set_state_rec_granted w g1 (by rw [hs1]; rfl)
    (by rintro ⟨_, hn⟩; exact hn hmay)]
  have hW0g1 : (({ w.setG g1 { w.gesture g1 with state := .recognizing } with
      claimed := w.claimed ++
        (w.gesture g1).points.map (fun p => (g1, p.device, p.sequence)) } :
        World).gesture g1) =
      { w.gesture g1 with state := .recognizing } := by
    rw [gesture_claimed_upd, gesture_setG_same]
  have hW0g2 : (({ w.setG g1 { w.gesture g1 with state := .recognizing } with
      claimed := w.claimed ++
        (w.gesture g1).points.map (fun p => (g1, p.device, p.sequence)) } :
        World).gesture g2) = w.gesture g2 := by
    rw [gesture_claimed_upd, gesture_setG_other _ _ h12.symm]
  rw [mcig_def]
  have hprot := mcig_protected g1 g2
    (({ w.setG g1 { w.gesture g1 with state := .recognizing } with
      claimed := w.claimed ++
        (w.gesture g1).points.map (fun p => (g1, p.device, p.sequence)) } :
        World).all_active_gestures.length)
    ({ w.setG g1 { w.gesture g1 with state := .recognizing } with
      claimed := w.claimed ++
        (w.gesture g1).points.map (fun p => (g1, p.device, p.sequence)) } :
        World)
    (by rw [hW0g1]; exact hrel12)
  have hselff := mcig_fields_self g1
    (({ w.setG g1 { w.gesture g1 with state := .recognizing } with
      claimed := w.claimed ++
        (w.gesture g1).points.map (fun p => (g1, p.device, p.sequence)) } :
        World).all_active_gestures.length)
    ({ w.setG g1 { w.gesture g1 with state := .recognizing } with
      claimed := w.claimed ++
        (w.gesture g1).points.map (fun p => (g1, p.device, p.sequence)) } :
        World)
  generalize hWm : mcig_go g1
    (({ w.setG g1 { w.gesture g1 with state := .recognizing } with
      claimed := w.claimed ++
        (w.gesture g1).points.map (fun p => (g1, p.device, p.sequence)) } :
        World).all_active_gestures.length)
    ({ w.setG g1 { w.gesture g1 with state := .recognizing } with
      claimed := w.claimed ++
        (w.gesture g1).points.map (fun p => (g1, p.device, p.sequence)) } :
        World) = Wm at hprot hselff ⊢
  have hXg1 : ((Wm.logStateChanged g1 (w.gesture g1).state
      .recognizing).gesture g1).state = .recognizing := by
    rw [gesture_log, hselff.1, hW0g1]
  rw [if_pos (Or.inl hXg1)]
  have hXcancel : ((Wm.logStateChanged g1 (w.gesture g1).state
      .recognizing).gesture g1).cancel_on_recognizing =
        (w.gesture g1).cancel_on_recognizing := by
    rw [gesture_log, hselff.2.2.2, hW0g1]
  have hXrel : g2 ∈ ((Wm.logStateChanged g1 (w.gesture g1).state
      .recognizing).gesture g1).in_relationship_with := by
    rw [gesture_log]
    exact hprot.2
  have hXg2state : ((Wm.logStateChanged g1 (w.gesture g1).state
      .recognizing).gesture g2).state = .possible := by
    rw [gesture_log, hprot.1.1, hW0g2]
    exact hs2
  have hXg2pts : ((Wm.logStateChanged g1 (w.gesture g1).state
      .recognizing).gesture g2).points ≠ [] := by
    rw [gesture_log, hprot.1.2.1, hW0g2]
    exact hpts2
  rcases miog_cancels (Wm.logStateChanged g1 (w.gesture g1).state .recognizing)
    g1 g2 h12.symm (Or.inl hXg1) (by rw [hXcancel]; exact hc12) hXrel
    hXg2state hXg2pts (by rw [hXcancel]; exact hnotself) with ⟨hg2c, hg1s⟩
  rw [mmtw_nop_state _ g1 (by rw [hg1s, hXg1]; decide)
    (by rw [hg1s, hXg1]; decide)]
  exact ⟨by rw [hg1s, hXg1], hg2c⟩

/-- Witness for C1 at the concrete two-gesture world c1_world. -/
theorem C1_mutual_cancellation_witness :
    ((set_state_authoritative c1_world 0 .recognizing).gesture 0).state =
      .recognizing ∧
    ((set_state_authoritative c1_world 0 .recognizing).gesture 1).state =
      .cancelled :=
  C1_mutual_cancellation c1_world 0 1 (by decide) (by decide) (by decide)
    (by decide) (by decide) (by decide) (by decide) (by decide)
    ⟨mk_point 1 0, by decide, mk_point 1 0, by decide, rfl, rfl⟩ (by decide)

end GestureModel

namespace GestureModel

theorem influence_fold_fields (s x : Nat) (l : List Nat) :
    ∀ w, x ∉ l → fields_at x w (l.foldl (influence_step s) w) := by
  induction l with
  | nil => exact fun w _ => fields_at_refl x w
  | cons o rest ih =>
      intro w hx
      have hox : o ≠ x := fun h => hx (h ▸ List.mem_cons_self _ _)
      have hxrest : x ∉ rest := fun h => hx (List.mem_cons_of_mem _ h)
      have hfold : (o :: rest).foldl (influence_step s) w =
          rest.foldl (influence_step s) (influence_step s w o) := rfl
      rw [hfold]
      have hstep_cases : influence_step s w o = w ∨
          influence_step s w o =
            maybe_move_to_waiting (set_state_simple w o .cancelled) o := by
        unfold influence_step
        split
        · exact Or.inr rfl
        · exact Or.inl rfl
      rcases hstep_cases with he | he
      · rw [he]; exact ih w hxrest
      · have hxf : fields_at x w (influence_step s w o) := by
          rw [he]
          exact fields_at_trans
            (sss_frame w o .cancelled x (fun h => hox h.symm)).1
            (mmtw_frame (set_state_simple w o .cancelled) o x
              (fun h => hox h.symm)).1
        exact fields_at_trans hxf (ih _ hxrest)

theorem miog_self_state_points (w : World) (s : Nat)
    (hnotself : s ∉ (w.gesture s).cancel_on_recognizing) :
    ((maybe_influence_other_gestures w s).gesture s).state =
      (w.gesture s).state ∧
    ((maybe_influence_other_gestures w s).gesture s).points =
      (w.gesture s).points := by
  unfold maybe_influence_other_gestures
  split
  · have hf := influence_fold_fields s s ((w.gesture s).cancel_on_recognizing)
      (w.setG s { w.gesture s with cancel_on_recognizing := [] }) hnotself
    constructor
    · rw [hf.1, gesture_setG_same]
    · rw [hf.2.1, gesture_setG_same]
  · exact ⟨rfl, rfl⟩

/-- Claim C4: for a gesture in POSSIBLE, a set_state request for COMPLETED
is executed as the two transitions POSSIBLE→RECOGNIZING→COMPLETED, with the
arbitration side effects of the intermediate RECOGNIZING entry around the
two consecutive state_changed records; if the intermediate transition to
RECOGNIZING is refused by the may-recognize consultation, the gesture ends
in CANCELLED. -/
theorem C4_completed_via_recognizing (w : World) (g : Nat)
    (hs : (w.gesture g).state = .possible)
    (hpts : (w.gesture g).points ≠ [])
    (hnotself : g ∉ (w.gesture g).cancel_on_recognizing) :
    (gesture_may_start w g = true →
      ((clutter_gesture_set_state w g .completed).gesture g).state =
        .completed ∧
      ∃ l1 l2 : List (Nat × GState × GState),
        (clutter_gesture_set_state w g .completed).state_changed_log =
          w.state_changed_log ++
            (l1 ++ ((g, GState.possible, GState.recognizing) ::
                    (g, GState.recognizing, GState.completed) :: l2))) ∧
    (gesture_may_start w g = false →
      ((clutter_gesture_set_state w g .completed).gesture g).state =
        .cancelled ∧
      (clutter_gesture_set_state w g .completed).state_changed_log =
        w.state_changed_log ++ [(g, GState.possible, GState.cancelled)]) := by
  have hcg : clutter_gesture_set_state w g .completed =
      set_state_authoritative w g .completed := by
    unfold clutter_gesture_set_state
    rw [if_pos (by rw [hs]; rfl)]
  constructor
  · intro hmay
    rw [hcg]
    unfold set_state_authoritative
    rw [if_pos ⟨by rw [hs]; decide, rfl⟩]
    rw [set_state_rec_granted w g (by rw [hs]; rfl)
      (by rintro ⟨_, hn⟩; exact hn hmay)]
    rw [mcig_def]
    have hW0g : (({ w.setG g { w.gesture g with state := .recognizing } with
        claimed := w.claimed ++
          (w.gesture g).points.map (fun p => (g, p.device, p.sequence)) } :
          World).gesture g) = { w.gesture g with state := .recognizing } := by
      rw [gesture_claimed_upd, gesture_setG_same]
    have hW0log : (({ w.setG g { w.gesture g with state := .recognizing } with
        claimed := w.claimed ++
          (w.gesture g).points.map (fun p => (g, p.device, p.sequence)) } :
          World).state_changed_log) = w.state_changed_log := rfl
    have hselff := mcig_fields_self g
      (({ w.setG g { w.gesture g with state := .recognizing } with
        claimed := w.claimed ++
          (w.gesture g).points.map (fun p => (g, p.device, p.sequence)) } :
          World).all_active_gestures.length)
      ({ w.setG g { w.gesture g with state := .recognizing } with
        claimed := w.claimed ++
          (w.gesture g).points.map (fun p => (g, p.device, p.sequence)) } :
          World)
    have hlog1 := log_mono_mcig g
      (({ w.setG g { w.gesture g with state := .recognizing } with
        claimed := w.claimed ++
          (w.gesture g).points.map (fun p => (g, p.device, p.sequence)) } :
          World).all_active_gestures.length)
      ({ w.setG g { w.gesture g with state := .recognizing } with
        claimed := w.claimed ++
          (w.gesture g).points.map (fun p => (g, p.device, p.sequence)) } :
          World)
    generalize hWm : mcig_go g
      (({ w.setG g { w.gesture g with state := .recognizing } with
        claimed := w.claimed ++
          (w.gesture g).points.map (fun p => (g, p.device, p.sequence)) } :
          World).all_active_gestures.length)
      ({ w.setG g { w.gesture g with state := .recognizing } with
        claimed := w.claimed ++
          (w.gesture g).points.map (fun p => (g, p.device, p.sequence)) } :
          World) = Wm at hselff hlog1 ⊢
    rcases hlog1 with ⟨l1, hl1⟩
    have hXst : ((Wm.logStateChanged g (w.gesture g).state
        .recognizing).gesture g).state = .recognizing := by
      rw [gesture_log, hselff.1, hW0g]
    rw [if_pos hXst]
    rw [set_state_nonrec _ _ _ (by decide)]
    rw [sss_rec_completed _ _ hXst]
    have hXpts : ((Wm.logStateChanged g (w.gesture g).state
        .recognizing).gesture g).points = (w.gesture g).points := by
      rw [gesture_log, hselff.2.1, hW0g]
    have hXcan : ((Wm.logStateChanged g (w.gesture g).state
        .recognizing).gesture g).cancel_on_recognizing =
          (w.gesture g).cancel_on_recognizing := by
      rw [gesture_log, hselff.2.2.2, hW0g]
    have hYg : ((((Wm.logStateChanged g (w.gesture g).state
        .recognizing).setG g
        { (Wm.logStateChanged g (w.gesture g).state .recognizing).gesture g with
          state := .completed
          public_points := []
          point_indices := 0 }).logStateChanged g .recognizing
            .completed).gesture g) =
        { (Wm.logStateChanged g (w.gesture g).state .recognizing).gesture g with
          state := .completed
          public_points := []
          point_indices := 0 } := by
      rw [gesture_log, gesture_setG_same]
    have hYstate : ((((Wm.logStateChanged g (w.gesture g).state
        .recognizing).setG g
        { (Wm.logStateChanged g (w.gesture g).state .recognizing).gesture g with
          state := .completed
          public_points := []
          point_indices := 0 }).logStateChanged g .recognizing
            .completed).gesture g).state = .completed := by
      rw [hYg]
    have hYpts : ((((Wm.logStateChanged g (w.gesture g).state
        .recognizing).setG g
        { (Wm.logStateChanged g (w.gesture g).state .recognizing).gesture g with
          state := .completed
          public_points := []
          point_indices := 0 }).logStateChanged g .recognizing
            .completed).gesture g).points = (w.gesture g).points := by
      rw [hYg]
      show ((Wm.logStateChanged g (w.gesture g).state
        .recognizing).gesture g).points = (w.gesture g).points
      exact hXpts
    have hYcan : g ∉ ((((Wm.logStateChanged g (w.gesture g).state
        .recognizing).setG g
        { (Wm.logStateChanged g (w.gesture g).state .recognizing).gesture g with
          state := .completed
          public_points := []
          point_indices := 0 }).logStateChanged g .recognizing
            .completed).gesture g).cancel_on_recognizing := by
      rw [hYg]
      show g ∉ ((Wm.logStateChanged g (w.gesture g).state
        .recognizing).gesture g).cancel_on_recognizing
      rw [hXcan]
      exact hnotself
    have hYlog : ((((Wm.logStateChanged g (w.gesture g).state
        .recognizing).setG g
        { (Wm.logStateChanged g (w.gesture g).state .recognizing).gesture g with
          state := .completed
          public_points := []
          point_indices := 0 }).logStateChanged g .recognizing
            .completed).state_changed_log) =
        ((w.state_changed_log ++ l1) ++
          [(g, (w.gesture g).state, GState.recognizing)]) ++
          [(g, GState.recognizing, GState.completed)] := by
      rw [log_log, log_setG, log_log, hl1, hW0log]
    generalize hY : (((Wm.logStateChanged g (w.gesture g).state
        .recognizing).setG g
        { (Wm.logStateChanged g (w.gesture g).state .recognizing).gesture g with
          state := .completed
          public_points := []
          point_indices := 0 }).logStateChanged g .recognizing
            .completed) = Y at hYstate hYpts hYcan hYlog ⊢
    rcases miog_self_state_points Y g hYcan with ⟨hms, hmp⟩
    rcases log_mono_miog Y g with ⟨l2, hl2⟩
    rw [mmtw_nop_points _ g (by rw [hmp, hYpts]; exact hpts)]
    refine ⟨by rw [hms, hYstate], l1, l2, ?_⟩
    rw [hl2, hYlog, hs]
    simp [List.append_assoc]
  · intro hmayf
    rw [hcg]
    unfold set_state_authoritative
    rw [if_pos ⟨by rw [hs]; decide, rfl⟩]
    rw [set_state_rec_refused w g hs hmayf]
    rw [sss_possible_cancelled w g hs]
    rw [if_neg (by rw [gesture_log, gesture_setG_same]; exact fun h => nomatch h)]
    rw [miog_nop _ g (by rw [gesture_log, gesture_setG_same]; exact fun h => nomatch h)
      (by rw [gesture_log, gesture_setG_same]; exact fun h => nomatch h)]
    rw [mmtw_nop_points _ g (by rw [gesture_log, gesture_setG_same]; exact hpts)]
    refine ⟨?_, ?_⟩
    · rw [gesture_log, gesture_setG_same]
    · rw [log_log, log_setG]

/-- Witness for C4 at the concrete worlds c4_world (recognition granted)
and c4_world_vetoed (recognition refused). -/
theorem C4_completed_via_recognizing_witness :
    ((clutter_gesture_set_state c4_world 0 .completed).gesture 0).state =
      .completed ∧
    ((clutter_gesture_set_state c4_world_vetoed 0 .completed).gesture 0).state =
      .cancelled :=
  ⟨((C4_completed_via_recognizing c4_world 0 (by decide) (by decide)
      (by decide)).1 (by decide)).1,
   ((C4_completed_via_recognizing c4_world_vetoed 0 (by decide) (by decide)
      (by decide)).2 (by decide)).1⟩

end GestureModel

namespace GestureModel

theorem mcig_fields_nonpossible (s x : Nat) :
    ∀ (k : Nat) (w : World), (w.gesture x).state ≠ .possible →
      fields_at x w (mcig_go s k w) := by
  intro k
  induction k with
  | zero => exact fun w _ => fields_at_refl x w
  | succ k ih =>
      intro w hx
      have hrec : mcig_go s (k + 1) w = mcig_go s k (mcig_step s k w) := rfl
      rw [hrec]
      rcases mcig_step_cases s k w with he | ⟨v, hvs, hvrel, hvposs, he⟩
      · rw [he]; exact ih w hx
      · rw [he]
        have hvx : x ≠ v := fun h => hx (h ▸ hvposs)
        have hf := (sacc_frame w v x hvx).1
        exact fields_at_trans hf (ih _ (by rw [hf.1]; exact hx))

/-- Claim C3, counterexample: in c3_world the starting gesture 1 is listed
in the RECOGNIZING gesture 0's recognize_independently_from set, exactly
the direction the claim describes, yet the start of gesture 1 is refused
and its RECOGNIZING attempt ends in CANCELLED: the code consults the
starting gesture's own set, not the recognizing gesture's. -/
theorem C3_counterexample :
    1 ∈ (c3_world.gesture 0).recognize_independently_from ∧
    (c3_world.gesture 0).state = .recognizing ∧
    (c3_world.gesture 1).state = .possible ∧
    1 ∉ (c3_world.gesture 0).in_relationship_with ∧
    gesture_may_start c3_world 1 = false ∧
    ((set_state c3_world 1 .recognizing).gesture 1).state = .cancelled := by
  decide

/-- Claim C3, amended: with one unrelated RECOGNIZING gesture gp present, a
gesture g attempting to start is allowed exactly when gp is in g's OWN
recognize_independently_from set; when it is not, the RECOGNIZING attempt
ends in CANCELLED, and when it is, both gestures are RECOGNIZING
afterwards. -/
theorem C3_override_is_on_starting_gesture (w : World) (g gp : Nat)
    (hne : g ≠ gp)
    (hrec : (w.gesture gp).state = .recognizing)
    (hposs : (w.gesture g).state = .possible)
    (hunrel : g ∉ (w.gesture gp).in_relationship_with)
    (hactive : w.all_active_gestures = [gp, g])
    (hmayrec : (w.gesture g).may_recognize = true) :
    (gesture_may_start w g =
      decide (gp ∈ (w.gesture g).recognize_independently_from)) ∧
    (gp ∉ (w.gesture g).recognize_independently_from →
      ((set_state w g .recognizing).gesture g).state = .cancelled) ∧
    (gp ∈ (w.gesture g).recognize_independently_from →
      ((set_state w g .recognizing).gesture g).state = .recognizing ∧
      ((set_state w g .recognizing).gesture gp).state = .recognizing) := by
  have hstart : gesture_may_start w g =
      decide (gp ∈ (w.gesture g).recognize_independently_from) := by
    unfold gesture_may_start new_gesture_allowed_to_start
      other_gesture_allowed_to_start
    rw [hactive, hmayrec]
    simp only [List.all_cons, List.all_nil]
    rw [if_neg (fun h => hne h.symm), if_neg hunrel, if_pos hrec]
    by_cases hm : gp ∈ (w.gesture g).recognize_independently_from
    · simp [hm]
    · simp [hm]
  refine ⟨hstart, ?_, ?_⟩
  · intro hmem
    have hmay : gesture_may_start w g = false := by
      rw [hstart]
      exact decide_eq_false hmem
    rw [set_state_rec_refused w g hposs hmay, sss_possible_cancelled w g hposs]
    rw [gesture_log, gesture_setG_same]
  · intro hmem
    have hmay : gesture_may_start w g = true := by
      rw [hstart]
      exact decide_eq_true hmem
    rw [set_state_rec_granted w g (by rw [hposs]; rfl)
      (by rintro ⟨_, hn⟩; exact hn hmay)]
    rw [mcig_def]
    have hW0g : (({ w.setG g { w.gesture g with state := .recognizing } with
        claimed := w.claimed ++
          (w.gesture g).points.map (fun p => (g, p.device, p.sequence)) } :
          World).gesture g) = { w.gesture g with state := .recognizing } := by
      rw [gesture_claimed_upd, gesture_setG_same]
    have hW0gp : (({ w.setG g { w.gesture g with state := .recognizing } with
        claimed := w.claimed ++
          (w.gesture g).points.map (fun p => (g, p.device, p.sequence)) } :
          World).gesture gp) = w.gesture gp := by
      rw [gesture_claimed_upd, gesture_setG_other _ _ (fun h => hne h.symm)]
    have hselff := mcig_fields_self g
      (({ w.setG g { w.gesture g with state := .recognizing } with
        claimed := w.claimed ++
          (w.gesture g).points.map (fun p => (g, p.device, p.sequence)) } :
          World).all_active_gestures.length)
      ({ w.setG g { w.gesture g with state := .recognizing } with
        claimed := w.claimed ++
          (w.gesture g).points.map (fun p => (g, p.device, p.sequence)) } :
          World)
    have hgp := mcig_fields_nonpossible g gp
      (({ w.setG g { w.gesture g with state := .recognizing } with
        claimed := w.claimed ++
          (w.gesture g).points.map (fun p => (g, p.device, p.sequence)) } :
          World).all_active_gestures.length)
      ({ w.setG g { w.gesture g with state := .recognizing } with
        claimed := w.claimed ++
          (w.gesture g).points.map (fun p => (g, p.device, p.sequence)) } :
          World)
      (by rw [hW0gp, hrec]; exact fun h => nomatch h)
    constructor
    · rw [gesture_log, hselff.1, hW0g]
    · rw [gesture_log, hgp.1, hW0gp]
      exact hrec

/-- Witness for the amended C3 at the concrete world c3_world_allowed,
where the override sits on the starting gesture 1: both gestures end up
RECOGNIZING simultaneously. -/
theorem C3_override_witness :
    ((set_state c3_world_allowed 1 .recognizing).gesture 1).state =
      .recognizing ∧
    ((set_state c3_world_allowed 1 .recognizing).gesture 0).state =
      .recognizing :=
  (C3_override_is_on_starting_gesture c3_world_allowed 1 0 (by decide)
    (by decide) (by decide) (by decide) (by decide) (by decide)).2.2
    (by decide)

end GestureModel

namespace GestureModel

/-- Claim C7, counterexample: in c7_world, a set_state(RECOGNIZING) request
on gesture 0, already RECOGNIZING, DOES re-emit the state_changed
notification (with old = new = RECOGNIZING), the log strictly grows; the
claim pass on the stage's sequence-claim map is indeed re-run. -/
theorem C7_counterexample :
    (clutter_gesture_set_state c7_world 0 .recognizing).state_changed_log =
      c7_world.state_changed_log ++ [(0, .recognizing, .recognizing)] ∧
    c7_world.state_changed_log ++ [(0, .recognizing, .recognizing)] ≠
      c7_world.state_changed_log ∧
    (clutter_gesture_set_state c7_world 0 .recognizing).claimed =
      c7_world.claimed ++ [(0, 1, 7)] := by
  decide

/-- Claim C7, amended: a set_state(RECOGNIZING) request on a gesture
already RECOGNIZING keeps the gesture RECOGNIZING, re-runs the pass that
claims every owned point on the stage's sequence-claim map, and re-emits
state_changed with old = new = RECOGNIZING. -/
theorem C7_self_transition (w : World) (g : Nat)
    (hrec : (w.gesture g).state = .recognizing)
    (hnotself : g ∉ (w.gesture g).cancel_on_recognizing) :
    ((clutter_gesture_set_state w g .recognizing).gesture g).state =
      .recognizing ∧
    (clutter_gesture_set_state w g .recognizing).claimed =
      w.claimed ++
        (w.gesture g).points.map (fun p => (g, p.device, p.sequence)) ∧
    ∃ l1 l2 : List (Nat × GState × GState),
      (clutter_gesture_set_state w g .recognizing).state_changed_log =
        w.state_changed_log ++
          (l1 ++ ((g, GState.recognizing, GState.recognizing) :: l2)) := by
  have hcg : clutter_gesture_set_state w g .recognizing =
      set_state_authoritative w g .recognizing := by
    unfold clutter_gesture_set_state
    rw [if_pos (by rw [hrec]; rfl)]
  rw [hcg]
  unfold set_state_authoritative
  rw [if_neg (by rintro ⟨hc, _⟩; exact hc hrec)]
  rw [set_state_rec_granted w g (by rw [hrec]; rfl)
    (by rintro ⟨hp, _⟩; rw [hrec] at hp; exact nomatch hp)]
  rw [mcig_def]
  have hW0g : (({ w.setG g { w.gesture g with state := .recognizing } with
      claimed := w.claimed ++
        (w.gesture g).points.map (fun p => (g, p.device, p.sequence)) } :
        World).gesture g) = { w.gesture g with state := .recognizing } := by
    rw [gesture_claimed_upd, gesture_setG_same]
  have hW0log : (({ w.setG g { w.gesture g with state := .recognizing } with
      claimed := w.claimed ++
        (w.gesture g).points.map (fun p => (g, p.device, p.sequence)) } :
        World).state_changed_log) = w.state_changed_log := rfl
  have hW0claimed : (({ w.setG g
      { w.gesture g with state := .recognizing } with
      claimed := w.claimed ++
        (w.gesture g).points.map (fun p => (g, p.device, p.sequence)) } :
        World).claimed) = w.claimed ++
        (w.gesture g).points.map (fun p => (g, p.device, p.sequence)) := rfl
  have hselff := mcig_fields_self g
    (({ w.setG g { w.gesture g with state := .recognizing } with
      claimed := w.claimed ++
        (w.gesture g).points.map (fun p => (g, p.device, p.sequence)) } :
        World).all_active_gestures.length)
    ({ w.setG g { w.gesture g with state := .recognizing } with
      claimed := w.claimed ++
        (w.gesture g).points.map (fun p => (g, p.device, p.sequence)) } :
        World)
  have hcl1 := mcig_claimed g
    (({ w.setG g { w.gesture g with state := .recognizing } with
      claimed := w.claimed ++
        (w.gesture g).points.map (fun p => (g, p.device, p.sequence)) } :
        World).all_active_gestures.length)
    ({ w.setG g { w.gesture g with state := .recognizing } with
      claimed := w.claimed ++
        (w.gesture g).points.map (fun p => (g, p.device, p.sequence)) } :
        World)
  have hlog1 := log_mono_mcig g
    (({ w.setG g { w.gesture g with state := .recognizing } with
      claimed := w.claimed ++
        (w.gesture g).points.map (fun p => (g, p.device, p.sequence)) } :
        World).all_active_gestures.length)
    ({ w.setG g { w.gesture g with state := .recognizing } with
      claimed := w.claimed ++
        (w.gesture g).points.map (fun p => (g, p.device, p.sequence)) } :
        World)
  generalize hWm : mcig_go g
    (({ w.setG g { w.gesture g with state := .recognizing } with
      claimed := w.claimed ++
        (w.gesture g).points.map (fun p => (g, p.device, p.sequence)) } :
        World).all_active_gestures.length)
    ({ w.setG g { w.gesture g with state := .recognizing } with
      claimed := w.claimed ++
        (w.gesture g).points.map (fun p => (g, p.device, p.sequence)) } :
        World) = Wm at hselff hcl1 hlog1 ⊢
  rcases hlog1 with ⟨l1, hl1⟩
  have hXst : ((Wm.logStateChanged g (w.gesture g).state
      .recognizing).gesture g).state = .recognizing := by
    rw [gesture_log, hselff.1, hW0g]
  rw [if_pos (Or.inl hXst)]
  have hXcan : g ∉ ((Wm.logStateChanged g (w.gesture g).state
      .recognizing).gesture g).cancel_on_recognizing := by
    rw [gesture_log, hselff.2.2.2, hW0g]
    exact hnotself
  rcases miog_self_state_points
    (Wm.logStateChanged g (w.gesture g).state .recognizing) g hXcan
    with ⟨hms, _⟩
  rcases log_mono_miog
    (Wm.logStateChanged g (w.gesture g).state .recognizing) g with ⟨l2, hl2⟩
  have hmc := miog_claimed
    (Wm.logStateChanged g (w.gesture g).state .recognizing) g
  rw [mmtw_nop_state _ g (by rw [hms, hXst]; exact fun h => nomatch h)
    (by rw [hms, hXst]; exact fun h => nomatch h)]
  refine ⟨by rw [hms, hXst], ?_, l1, l2, ?_⟩
  · rw [hmc, claimed_log, hcl1, hW0claimed]
  · rw [hl2, log_log, hl1, hW0log, hrec]
    simp [List.append_assoc]

/-- Witness for the amended C7 at the concrete world c7_world. -/
theorem C7_self_transition_witness :
    ((clutter_gesture_set_state c7_world 0 .recognizing).gesture 0).state =
      .recognizing ∧
    (clutter_gesture_set_state c7_world 0 .recognizing).claimed =
      c7_world.claimed ++ (c7_world.gesture 0).points.map
        (fun p => (0, p.device, p.sequence)) :=
  ⟨(C7_self_transition c7_world 0 (by decide) (by decide)).1,
   (C7_self_transition c7_world 0 (by decide) (by decide)).2.1⟩

end GestureModel

namespace GestureModel

theorem remove_point_state (w : World) (s d q : Nat) :
    ((remove_point w s d q).gesture s).state = (w.gesture s).state := by
  unfold remove_point
  split
  · rfl
  · rw [gesture_setG_same]

theorem unregister_point_state_possible (w : World) (s d q : Nat)
    (h : (w.gesture s).state = .possible) :
    ((unregister_point w s d q).gesture s).state = .possible := by
  unfold unregister_point
  rw [if_neg]
  · rw [remove_point_state]
    exact h
  · rintro ⟨_, hc | hc⟩ <;> rw [remove_point_state, h] at hc <;>
      exact nomatch hc

theorem bump_buttons_state (w : World) (s i : Nat) (e : Event) :
    ((bump_buttons w s i e).gesture s).state = (w.gesture s).state := by
  unfold bump_buttons
  split
  · rw [gesture_setG_same]
  · split
    · rw [gesture_setG_same]
    · rfl

/-- Claim C6, counterexample: in the press/release scenario on the bare
gesture of c6_world, the gesture enters POSSIBLE on the press but REMAINS
in POSSIBLE after the release; the only transition ever logged is
WAITING→POSSIBLE, so the claimed chain WAITING→POSSIBLE→WAITING does not
happen. -/
theorem C6_counterexample :
    (c6_after.gesture 0).state = .possible ∧
    GState.possible ≠ GState.waiting ∧
    c6_after.state_changed_log = [(0, .waiting, .possible)] ∧
    (c6_after.gesture 0).points = [] := by
  decide

/-- Claim C6, amended: a gesture in POSSIBLE that handles a
non-synthetic BUTTON_RELEASE stays in POSSIBLE — the release unregisters
the point, but a gesture only returns to WAITING from the terminal states
COMPLETED and CANCELLED. -/
theorem C6_release_keeps_possible (w : World) (g : Nat) (e : Event)
    (hposs : (w.gesture g).state = .possible)
    (hrel : e.type = EvType.buttonRelease)
    (hsyn : e.synthetic = false) :
    ((handle_event w g e).gesture g).state = .possible := by
  unfold handle_event
  rw [if_neg (by rw [hsyn]; exact fun h => nomatch h)]
  rw [if_neg (by rw [hrel]; exact fun h => nomatch h)]
  split
  · exact hposs
  · rename_i i hfp
    split
    · rw [bump_buttons_state]
      exact hposs
    · unfold handle_event_tail
      rw [if_neg (by
        rw [bump_buttons_state, hposs]
        rintro (h | h) <;> exact nomatch h)]
      rw [if_neg (by rw [hrel]; rintro (h | h) <;> exact nomatch h)]
      rw [if_neg (by rw [hrel]; rintro (h | h) <;> exact nomatch h)]
      rw [if_pos (Or.inl hrel)]
      apply unregister_point_state_possible
      split
      · rw [gesture_setG_same]
        show ((bump_buttons w g i e).gesture g).state = GState.possible
        rw [bump_buttons_state]
        exact hposs
      · rw [bump_buttons_state]
        exact hposs

/-- Witness for the amended C6: the release step of the c6 scenario leaves
the gesture in POSSIBLE. -/
theorem C6_release_keeps_possible_witness :
    ((handle_event
      (handle_event (should_handle_sequence c6_world 0 c6_press).2 0 c6_press)
      0 c6_release).gesture 0).state = .possible :=
  C6_release_keeps_possible
    (handle_event (should_handle_sequence c6_world 0 c6_press).2 0 c6_press)
    0 c6_release (by decide) (by decide) (by decide)

end GestureModel

namespace GestureModel

theorem points_invariant_of_fields {g g' : Gesture}
    (hst : g'.state = g.state) (hp : g'.points = g.points)
    (hpub : g'.public_points = g.public_points)
    (h : points_invariant g) : points_invariant g' := by
  unfold points_invariant at h ⊢
  rw [hst, hp, hpub]
  exact h

theorem points_invariant_frame {j : Nat} {w w' : World}
    (hf : fields_at j w w') (h : points_invariant (w.gesture j)) :
    points_invariant (w'.gesture j) :=
  points_invariant_of_fields hf.1 hf.2.1 hf.2.2.1 h

theorem setG_points_inv (w : World) (s : Nat) (g' : Gesture)
    (hw : world_points_invariant w) (hg : points_invariant g') :
    world_points_invariant (w.setG s g') := by
  intro i
  by_cases his : i = s
  · subst his
    rw [gesture_setG_same]
    exact hg
  · rw [gesture_setG_other _ _ his]
    exact hw i

theorem legal_to_waiting {s : GState}
    (h : legal_transition s .waiting = true) :
    s = .completed ∨ s = .cancelled := by
  cases s
  · exact nomatch h
  · exact nomatch h
  · exact nomatch h
  · exact Or.inl rfl
  · exact Or.inr rfl

theorem sss_inv (w : World) (s : Nat) (ns : GState)
    (hw : world_points_invariant w) :
    world_points_invariant (set_state_simple w s ns) := by
  intro i
  by_cases his : i = s
  · subst his
    unfold set_state_simple
    split
    · exact hw i
    · rename_i hB
      split
      · exact hw i
      · rename_i hlegal
        split
        · split
          · exact hw i
          · rw [gesture_log, gesture_setG_same]
            constructor
            · intro h
              exact nomatch h
            · intro h
              exact h.elim (fun h => nomatch h) (fun h => nomatch h)
        · rename_i hC
          split
          · rename_i hE
            rw [gesture_log, gesture_setG_same]
            constructor
            · intro h
              refine ⟨rfl, ?_⟩
              have hleg : legal_transition (w.gesture i).state ns = true :=
                not_not.mp hlegal
              rw [hE] at hleg
              exact (hw i).2 (legal_to_waiting hleg)
            · intro h
              exact h.elim (fun h => nomatch h) (fun h => nomatch h)
          · rename_i hE
            rw [gesture_log, gesture_setG_same]
            split
            · rename_i hterm
              constructor
              · intro h
                have h' : ns = GState.waiting := h
                rw [h'] at hterm
                exact hterm.elim (fun h => nomatch h) (fun h => nomatch h)
              · intro h
                exact rfl
            · rename_i hterm
              constructor
              · intro h
                exact absurd h hE
              · intro h
                exact absurd h.symm hterm
  · exact points_invariant_frame (sss_frame w s ns i his).1 (hw i)

theorem mmtw_inv (w : World) (s : Nat) (hw : world_points_invariant w) :
    world_points_invariant (maybe_move_to_waiting w s) := by
  unfold maybe_move_to_waiting
  split
  · exact sss_inv w s .waiting hw
  · exact hw

theorem influence_step_inv (s : Nat) (w : World) (o : Nat)
    (hw : world_points_invariant w) :
    world_points_invariant (influence_step s w o) := by
  unfold influence_step
  split
  · exact mmtw_inv _ o (sss_inv w o .cancelled hw)
  · exact hw

theorem influence_fold_inv (s : Nat) (l : List Nat) :
    ∀ w, world_points_invariant w →
      world_points_invariant (l.foldl (influence_step s) w) := by
  induction l with
  | nil => exact fun _ hw => hw
  | cons o rest ih => exact fun w hw => ih _ (influence_step_inv s w o hw)

theorem miog_inv (w : World) (s : Nat) (hw : world_points_invariant w) :
    world_points_invariant (maybe_influence_other_gestures w s) := by
  unfold maybe_influence_other_gestures
  split
  · apply influence_fold_inv
    exact setG_points_inv _ _ _ hw
      (points_invariant_of_fields rfl rfl rfl (hw s))
  · exact hw

theorem sacc_inv (w : World) (v : Nat) (hw : world_points_invariant w) :
    world_points_invariant (set_state_auth_cancelled w v) := by
  unfold set_state_auth_cancelled
  apply mmtw_inv
  split
  · exact miog_inv _ v (sss_inv w v .cancelled hw)
  · exact sss_inv w v .cancelled hw

theorem mcig_step_inv (s k : Nat) (w : World)
    (hw : world_points_invariant w) :
    world_points_invariant (mcig_step s k w) := by
  rcases mcig_step_cases s k w with he | ⟨v, _, _, _, he⟩
  · rw [he]; exact hw
  · rw [he]; exact sacc_inv w v hw

theorem mcig_go_inv (s : Nat) :
    ∀ (k : Nat) (w : World), world_points_invariant w →
      world_points_invariant (mcig_go s k w) := by
  intro k
  induction k with
  | zero => exact fun _ hw => hw
  | succ k ih => exact fun w hw => ih _ (mcig_step_inv s k w hw)

theorem set_state_inv (w : World) (s : Nat) (ns : GState)
    (hw : world_points_invariant w) :
    world_points_invariant (set_state w s ns) := by
  unfold set_state
  split
  · exact sss_inv w s ns hw
  · split
    · exact hw
    · split
      · exact sss_inv w s .cancelled hw
      · rw [mcig_def]
        intro i
        rw [gesture_log]
        refine mcig_go_inv s _ _ (fun j => ?_) i
        by_cases hjs : j = s
        · subst hjs
          rw [gesture_claimed_upd, gesture_setG_same]
          constructor
          · intro h
            exact nomatch h
          · intro h
            exact h.elim (fun h => nomatch h) (fun h => nomatch h)
        · rw [gesture_claimed_upd, gesture_setG_other _ _ hjs]
          exact hw j

theorem ssa_inv (w : World) (s : Nat) (ns : GState)
    (hw : world_points_invariant w) :
    world_points_invariant (set_state_authoritative w s ns) := by
  unfold set_state_authoritative
  split
  · apply mmtw_inv
    apply miog_inv
    split
    · exact set_state_inv _ s .completed (set_state_inv w s .recognizing hw)
    · exact set_state_inv w s .recognizing hw
  · apply mmtw_inv
    split
    · exact miog_inv _ s (set_state_inv w s ns hw)
    · exact set_state_inv w s ns hw

theorem cgss_inv (w : World) (s : Nat) (ns : GState)
    (hw : world_points_invariant w) :
    world_points_invariant (clutter_gesture_set_state w s ns) := by
  unfold clutter_gesture_set_state
  split
  · exact ssa_inv w s ns hw
  · split
    · exact hw
    · exact fun i => hw i

end GestureModel

namespace GestureModel

theorem register_point_inv (w : World) (s : Nat) (e : Event)
    (hw : world_points_invariant w)
    (hns : (w.gesture s).state ≠ .waiting) :
    world_points_invariant (register_point w s e) := by
  unfold register_point
  apply setG_points_inv _ _ _ hw
  constructor
  · intro h
    exact absurd h hns
  · intro h
    exact (hw s).2 h

theorem remove_point_inv (w : World) (s d q : Nat)
    (hw : world_points_invariant w) :
    world_points_invariant (remove_point w s d q) := by
  unfold remove_point
  split
  · exact hw
  · rename_i j hfp
    apply setG_points_inv _ _ _ hw
    constructor
    · intro h
      rcases (hw s).1 h with ⟨hp, hpub⟩
      constructor
      · rw [hp]
        rfl
      · rw [hpub]
        split
        · rfl
        · rfl
    · intro h
      have hpub := (hw s).2 h
      rw [hpub]
      split
      · rfl
      · rfl

theorem unregister_point_inv (w : World) (s d q : Nat)
    (hw : world_points_invariant w) :
    world_points_invariant (unregister_point w s d q) := by
  unfold unregister_point
  split
  · exact ssa_inv _ s .waiting (remove_point_inv w s d q hw)
  · exact remove_point_inv w s d q hw

theorem bump_buttons_inv (w : World) (s i : Nat) (e : Event)
    (hw : world_points_invariant w) :
    world_points_invariant (bump_buttons w s i e) := by
  unfold bump_buttons
  split
  · apply setG_points_inv _ _ _ hw
    constructor
    · intro h
      rcases (hw s).1 h with ⟨hp, hpub⟩
      refine ⟨?_, hpub⟩
      rw [hp]
      rfl
    · intro h
      exact (hw s).2 h
  · split
    · apply setG_points_inv _ _ _ hw
      constructor
      · intro h
        rcases (hw s).1 h with ⟨hp, hpub⟩
        refine ⟨?_, hpub⟩
        rw [hp]
        rfl
      · intro h
        exact (hw s).2 h
    · exact hw

theorem het_inv (w : World) (s : Nat) (e : Event) (i : Nat)
    (hw : world_points_invariant w)
    (hnw : (w.gesture s).state ≠ .waiting) :
    world_points_invariant (handle_event_tail w s e i) := by
  unfold handle_event_tail
  split
  · split
    · exact unregister_point_inv w s e.device e.sequence hw
    · exact hw
  · rename_i hterm
    split
    · apply setG_points_inv _ _ _ hw
      constructor
      · intro h
        exact absurd h hnw
      · intro h
        exact absurd h.symm hterm
    · split
      · split
        · apply setG_points_inv _ _ _ hw
          constructor
          · intro h
            exact absurd h hnw
          · intro h
            exact absurd h.symm hterm
        · exact hw
      · split
        · apply unregister_point_inv
          split
          · apply setG_points_inv _ _ _ hw
            constructor
            · intro h
              exact absurd h hnw
            · intro h
              exact absurd h.symm hterm
          · exact hw
        · split
          · exact unregister_point_inv w s e.device e.sequence hw
          · exact hw

theorem handle_event_inv (w : World) (s : Nat) (e : Event)
    (hw : world_points_invariant w) :
    world_points_invariant (handle_event w s e) := by
  unfold handle_event
  split
  · exact hw
  · split
    · exact hw
    · split
      · exact hw
      · rename_i i hfp
        have hne : (w.gesture s).points ≠ [] := by
          intro hp
          unfold find_point at hfp
          rw [hp] at hfp
          exact nomatch hfp
        have hnw : (w.gesture s).state ≠ .waiting :=
          fun h => hne ((hw s).1 h).1
        split
        · exact bump_buttons_inv w s i e hw
        · exact het_inv _ s e i (bump_buttons_inv w s i e hw)
            (by rw [bump_buttons_state]; exact hnw)

theorem shs_inv (w : World) (s : Nat) (e : Event)
    (hw : world_points_invariant w) :
    world_points_invariant (should_handle_sequence w s e).2 := by
  unfold should_handle_sequence
  split
  · exact hw
  · split
    · split
      · exact hw
      · rename_i hlen hsrc
        apply register_point_inv w s e hw
        intro hwst
        have hp := ((hw s).1 hwst).1
        rw [hp] at hlen
        exact absurd hlen (by decide)
    · split
      · exact hw
      · split
        · split
          · exact ssa_inv w s .possible hw
          · rename_i hnposs
            apply register_point_inv _ s e (ssa_inv w s .possible hw)
            rw [not_not.mp hnposs]
            exact fun h => nomatch h
        · rename_i hnwait
          exact register_point_inv w s e hw hnwait

theorem cap_inv (w : World) (s : Nat) (hw : world_points_invariant w) :
    world_points_invariant (cancel_all_points w s) := by
  unfold cancel_all_points
  split
  · apply ssa_inv
    apply setG_points_inv _ _ _ hw
    constructor
    · intro h
      exact ⟨rfl, ((hw s).1 h).2⟩
    · intro h
      exact (hw s).2 h
  · split
    · apply ssa_inv
      apply setG_points_inv _ _ _ hw
      exact ⟨fun _ => ⟨rfl, rfl⟩, fun _ => rfl⟩
    · apply setG_points_inv _ _ _ hw
      exact ⟨fun _ => ⟨rfl, rfl⟩, fun _ => rfl⟩

theorem unregister_fold_inv (s d : Nat) (l : List Nat) :
    ∀ w, world_points_invariant w →
      world_points_invariant
        (l.foldl (fun w q => unregister_point w s d q) w) := by
  induction l with
  | nil => exact fun _ hw => hw
  | cons o rest ih => exact fun w hw => ih _ (unregister_point_inv w s d o hw)

theorem cpbs_inv (w : World) (s d : Nat) (seqs : List Nat)
    (hw : world_points_invariant w) :
    world_points_invariant (cancel_points_by_sequences w s d seqs) := by
  unfold cancel_points_by_sequences
  split
  · exact unregister_point_inv w s d 0 hw
  · exact unregister_fold_inv s d seqs w hw

theorem setG_relcan_inv (w : World) (s : Nat) (rel can : List Nat)
    (hw : world_points_invariant w) :
    world_points_invariant (w.setG s
      { w.gesture s with
        in_relationship_with := rel
        cancel_on_recognizing := can }) := by
  apply setG_points_inv _ _ _ hw
  exact ⟨fun h => (hw s).1 h, fun h => (hw s).2 h⟩

theorem ssr_inv (w : World) (id1 id2 : Nat)
    (hw : world_points_invariant w) :
    world_points_invariant (setup_sequence_relationship w id1 id2).2 := by
  unfold setup_sequence_relationship
  split
  · exact hw
  · exact setG_relcan_inv _ id2 _ _ (setG_relcan_inv w id1 _ _ hw)

theorem cnc_inv (w : World) (a b : Nat) (hw : world_points_invariant w) :
    world_points_invariant (clutter_gesture_can_not_cancel w a b) := by
  unfold clutter_gesture_can_not_cancel
  dsimp only
  split
  · exact hw
  · exact setG_points_inv _ _ _ hw
      (points_invariant_of_fields rfl rfl rfl (hw a))

theorem rif_inv (w : World) (a b : Nat) (hw : world_points_invariant w) :
    world_points_invariant
      (clutter_gesture_recognize_independently_from w a b) := by
  unfold clutter_gesture_recognize_independently_from
  dsimp only
  split
  · exact hw
  · exact setG_points_inv _ _ _ hw
      (points_invariant_of_fields rfl rfl rfl (hw a))

theorem apply_step_inv (w : World) (st : Step)
    (hw : world_points_invariant w) :
    world_points_invariant (apply_step w st) := by
  cases st with
  | apiSetState id s => exact cgss_inv w id s hw
  | shouldHandle id e => exact shs_inv w id e hw
  | handle id e => exact handle_event_inv w id e hw
  | pair id1 id2 => exact ssr_inv w id1 id2 hw
  | detach id => exact cap_inv w id hw
  | seqCancelled id d seqs => exact cpbs_inv w id d seqs hw
  | apiCanNotCancel a b => exact cnc_inv w a b hw
  | apiRecognizeIndependently a b => exact rif_inv w a b hw

theorem init_world_inv : world_points_invariant init_world :=
  fun _ => ⟨fun _ => ⟨rfl, rfl⟩, fun _ => rfl⟩

theorem run_inv : ∀ (l : List Step) (w : World), world_points_invariant w →
    world_points_invariant (l.foldl apply_step w) := by
  intro l
  induction l with
  | nil => exact fun _ hw => hw
  | cons st rest ih => exact fun w hw => ih _ (apply_step_inv w st hw)

/-- Claim C5: along every run of external operations from the initial
world, every gesture in WAITING has empty private and public point sets,
and every gesture in COMPLETED or CANCELLED has an empty public point
set. -/
theorem C5_points_invariant (steps : List Step) (i : Nat) :
    (((run steps).gesture i).state = GState.waiting →
      ((run steps).gesture i).points = [] ∧
      ((run steps).gesture i).public_points = []) ∧
    (((run steps).gesture i).state = GState.completed ∨
     ((run steps).gesture i).state = GState.cancelled →
      ((run steps).gesture i).public_points = []) :=
  run_inv steps init_world init_world_inv i

/-- Witness for C5 on a concrete run: press, release and a cancel request
take the gesture back to WAITING with both point sets empty. -/
theorem C5_points_invariant_witness :
    ((run [Step.shouldHandle 0 c6_press, Step.handle 0 c6_press,
           Step.handle 0 c6_release,
           Step.apiSetState 0 .cancelled]).gesture 0).points = [] ∧
    ((run [Step.shouldHandle 0 c6_press, Step.handle 0 c6_press,
           Step.handle 0 c6_release,
           Step.apiSetState 0 .cancelled]).gesture 0).public_points = [] :=
  (C5_points_invariant
    [Step.shouldHandle 0 c6_press, Step.handle 0 c6_press,
     Step.handle 0 c6_release, Step.apiSetState 0 .cancelled] 0).1
    (by decide)

end GestureModel

namespace FailureDependencyModel

/-- Witness for C2 at the concrete world c2_world: gesture 0 requests
RECOGNIZING while its required-failure peer 1 is POSSIBLE, goes
RECOGNIZE_PENDING, and is promoted when peer 1 is cancelled. -/
theorem C2_failure_dependency_witness :
    ((request_state c2_world 0 .recognizing).gesture 0).state =
      .recognizePending ∧
    ((set_cancelled (request_state c2_world 0 .recognizing) 1).gesture
        0).state =
      (if PState.recognizing = PState.completed then PState.completed
       else PState.recognizing) :=
  C2_failure_dependency c2_world 0 1 .recognizing (by decide) (by decide)
    (by decide) (by decide) (by decide) (Or.inl rfl)

end FailureDependencyModel
